import Mathlib

/-!
# Shallow embedding of the NuttX MMC/SD SDIO block driver core

Source: `src/drivers/mmcsd/mmcsd_sdio.c`.

The embedding fixes one build configuration of the source file:
`CONFIG_SDIO_DMA` off (no DMA bounce paths), `CONFIG_MMCSD_MMCSUPPORT` on,
`CONFIG_DEBUG_FS_INFO` off, `CONFIG_MMCSD_SDIOWAIT_WRCOMPLETE` off,
`CONFIG_MMCSD_DSR` off, and `MMCSD_MULTIBLOCK_LIMIT != 1` (the limit itself is
a parameter).  The `SDIO_CAPS_DMABEFOREWRITE` capability is a runtime bit of
`priv->caps` and is kept as a boolean field of the state.

Interactions with the SDIO host controller (an external collaborator) are
supplied as oracle inputs: each `SDIO_RECVR1` outcome is an
`Except Int Nat` (host failure code, or the raw 32-bit R1 word), each
`SDIO_EVENTWAIT` outcome is the returned wakeup event set, and
`SDIO_PRESENT` / `SDIO_WRPROTECTED` are booleans.  Commands handed to the
host by `mmcsd_sendcmdpoll` are recorded in an issue trace; CMD13 status
polls performed inside `mmcsd_get_r1` are represented by the poll-outcome
lists consumed by `mmcsd_transferready` rather than by trace entries.
Timing (`clock_systime_ticks`, `MMCSD_USLEEP`) is abstracted by letting the
poll list contain exactly the `mmcsd_get_r1` outcomes that fit in one
tick-second: exhausting the list is the `elapsed >= TICK_PER_SEC` exit.
-/

namespace MmcsdSdio

/-! ## Return codes (values of `errno.h` constants; returns are negated) -/

def OK : Int := 0
def EPERM : Int := 1
def EIOcode : Int := 5
def ENODEV : Int := 19
def EINVAL : Int := 22
def ETIMEDOUT : Int := 110

/-! ## Card-type bits and R1 state constants

Modelled from the spec: these constants live in the headers
`mmcsd_sdio.h` / `mmcsd.h`, which are not under `src/`; the source uses them
through `IS_MMC`/`IS_SD`/`IS_BLOCK`/`IS_STATE` and the spec describes the
card-type variant with its orthogonal BlockAddressed flag (§3) and the R1
state field as bits 12:9 (§4.1, glossary TRAN/PRG/RCV/STBY). -/

def MMCSD_CARDTYPE_UNKNOWN : Nat := 0
def MMCSD_CARDTYPE_MMC : Nat := 1
def MMCSD_CARDTYPE_SDV1 : Nat := 2
def MMCSD_CARDTYPE_SDV2 : Nat := 4
def MMCSD_CARDTYPE_BLOCK : Nat := 8

def IS_MMC (t : Nat) : Bool := t &&& MMCSD_CARDTYPE_MMC != 0
def IS_SD (t : Nat) : Bool := t &&& (MMCSD_CARDTYPE_SDV1 ||| MMCSD_CARDTYPE_SDV2) != 0
def IS_BLOCK (t : Nat) : Bool := t &&& MMCSD_CARDTYPE_BLOCK != 0

/-- R1 card-state field, bits 12:9. -/
def MMCSD_R1_STATE_MASK : Nat := 15 <<< 9
def MMCSD_R1_STATE_STBY : Nat := 3 <<< 9
def MMCSD_R1_STATE_TRAN : Nat := 4 <<< 9
def MMCSD_R1_STATE_RCV : Nat := 6 <<< 9
def MMCSD_R1_STATE_PRG : Nat := 7 <<< 9

def IS_STATE (v s : Nat) : Bool := (v &&& MMCSD_R1_STATE_MASK) == s

/-- Modelled from the spec: R1 error bit mask (§4.1, "any error bit in
`R1_ERRORMASK`"); the exact constant is in `mmcsd_sdio.h`, outside `src/`,
and no claim depends on its value. -/
def MMCSD_R1_ERRORMASK : Nat := 0xffffe008

/-- Modelled from the spec: CARD_IS_LOCKED R1 bit (§4.1). -/
def MMCSD_R1_CARDISLOCKED : Nat := 1 <<< 25

/-- Modelled from the spec (§6 host contract): wakeup event bits of
`sdio.h`, outside `src/`. -/
def SDIOWAIT_TRANSFERDONE : Nat := 1 <<< 2
def SDIOWAIT_TIMEOUT : Nat := 1 <<< 3
def SDIOWAIT_ERROR : Nat := 1 <<< 4

/-- eMMC C_SIZE value flagging >2 GB densities (`MMCSD_CSD_CSIZE_THRESHOLD`,
value 0xfff per the source comment "0xFFF should be set to C_SIZE bitfield"). -/
def MMCSD_CSD_CSIZE_THRESHOLD : Nat := 0xfff

/-- Modelled from the spec (§4.7) and the source's own CMD6 comment:
MODE bits 25:24, WRITE_BYTE = 0b11; INDEX bits 23:16; VALUE bits 15:8;
`EXT_CSD_PART_CONF` = 179. -/
def MMC_CMD6_MODE_WRITE_BYTE : Nat := 3
def EXT_CSD_PART_CONF : Nat := 179
def MMC_CMD6_MODE (m : Nat) : Nat := m <<< 24
def MMC_CMD6_INDEX (i : Nat) : Nat := i <<< 16
def MMC_CMD6_VALUE (v : Nat) : Nat := v <<< 8

/-- Modelled from the spec: index of the RPMB entry of `part[]`
(suffix order "", boot0, boot1, rpmb, ... in §6). -/
def MMCSD_PART_RPMB : Nat := 3

/-- `MMCSD_CAPACITY(b, s)`: capacity in KB from block count and blockshift. -/
def MMCSD_CAPACITY (b s : Nat) : Nat :=
  if s ≥ 10 then b <<< (s - 10) else b >>> (10 - s)

/-! ## Slot state

The fields of `struct mmcsd_state_s` that the embedded operations read or
write.  `nblocks0` is `part[0].nblocks`; `capsDmaBeforeWrite` is the
`SDIO_CAPS_DMABEFOREWRITE` bit of `priv->caps`. -/

structure MmcsdState where
  cardType : Nat
  locked : Bool
  wrprotect : Bool
  wrbusy : Bool
  selblocklen : Nat
  blocksize : Nat
  blockshift : Nat
  partnum : Nat
  cmd23support : Bool
  dsrimp : Bool
  nblocks0 : Nat
  rca : Nat
  capsDmaBeforeWrite : Bool
deriving Repr, DecidableEq

/-- `IS_EMPTY(priv)`. -/
def IS_EMPTY (priv : MmcsdState) : Bool := priv.cardType == MMCSD_CARDTYPE_UNKNOWN

/-! ## Command issue trace -/

/-- A command handed to the host by `mmcsd_sendcmdpoll`, with its argument. -/
inductive SdCmd where
  | cmd6 (arg : Nat)
  | cmd12
  | cmd16 (arg : Nat)
  | cmd17 (arg : Nat)
  | cmd18 (arg : Nat)
  | cmd23 (arg : Nat)
  | cmd24 (arg : Nat)
  | cmd25 (arg : Nat)
  | cmd55 (arg : Nat)
  | acmd23 (arg : Nat)
  | cmd56rd (arg : Nat)
deriving Repr, DecidableEq

/-- Result of an embedded driver operation: the C return value, the updated
slot state, and the trace of commands issued to the host. -/
structure XferResult where
  ret : Int
  priv : MmcsdState
  trace : List SdCmd
deriving Repr, DecidableEq

/-! ## Command primitives -/

/-- `mmcsd_recv_r1`: receive and check an R1 response.  The host outcome of
`SDIO_RECVR1` is the oracle input. -/
def mmcsd_recv_r1 (priv : MmcsdState) (resp : Except Int Nat) : Int × MmcsdState :=
  match resp with
  | .error e => (e, priv)
  | .ok r1 =>
    if r1 &&& MMCSD_R1_ERRORMASK != 0 then
      (-EIOcode, { priv with locked := r1 &&& MMCSD_R1_CARDISLOCKED != 0 })
    else (OK, priv)

/-- `mmcsd_get_r1`: CMD13 status poll.  Returns the R1 word only on clean
success (the C out-parameter is written only then). -/
def mmcsd_get_r1 (priv : MmcsdState) (resp : Except Int Nat) :
    Int × MmcsdState × Option Nat :=
  match resp with
  | .error e => (e, priv, none)
  | .ok r1 =>
    if r1 &&& MMCSD_R1_ERRORMASK != 0 then
      (-EIOcode, { priv with locked := r1 &&& MMCSD_R1_CARDISLOCKED != 0 }, none)
    else (OK, priv, some r1)

/-- `mmcsd_eventwait`: classify the wakeup event set returned by
`SDIO_EVENTWAIT` against the fail events. -/
def mmcsd_eventwait (failevents wkupevent : Nat) : Int :=
  if wkupevent &&& failevents != 0 then
    if wkupevent &&& SDIOWAIT_TIMEOUT != 0 then -ETIMEDOUT else -EIOcode
  else OK

/-! ## Transfer readiness -/

/-- The polling loop of `mmcsd_transferready`: one list element per
`mmcsd_get_r1` outcome; an exhausted list is the one-tick-second timeout. -/
def transferready_loop (priv : MmcsdState) :
    List (Except Int Nat) → Int × MmcsdState
  | [] => (-ETIMEDOUT, priv)
  | resp :: rest =>
    let r := mmcsd_get_r1 priv resp
    if r.1 != OK then (r.1, r.2.1)
    else
      let r1 := r.2.2.getD 0
      if IS_STATE r1 MMCSD_R1_STATE_TRAN then (OK, { r.2.1 with wrbusy := false })
      else if !IS_STATE r1 MMCSD_R1_STATE_PRG && !IS_STATE r1 MMCSD_R1_STATE_RCV then
        (-EINVAL, r.2.1)
      else transferready_loop r.2.1 rest

/-- `mmcsd_transferready`. -/
def mmcsd_transferready (priv : MmcsdState) (present : Bool)
    (polls : List (Except Int Nat)) : Int × MmcsdState :=
  if IS_EMPTY priv || !present then (-ENODEV, priv)
  else if !priv.wrbusy then (OK, priv)
  else transferready_loop priv polls

/-! ## CMD6 switch and small command helpers -/

/-- `mmcsd_switch`: CMD6 with `wrbusy` set between issue and R1 reception. -/
def mmcsd_switch (priv : MmcsdState) (arg : Nat) (present : Bool)
    (polls : List (Except Int Nat)) (r1resp : Except Int Nat) : XferResult :=
  let t := mmcsd_transferready priv present polls
  if t.1 != OK then ⟨t.1, t.2, []⟩
  else
    let priv1 : MmcsdState := { t.2 with wrbusy := true }
    let r := mmcsd_recv_r1 priv1 r1resp
    ⟨r.1, r.2, [SdCmd.cmd6 arg]⟩

/-- `mmcsd_setblocklen`: CMD16, skipped when `selblocklen` already matches. -/
def mmcsd_setblocklen (priv : MmcsdState) (blocklen : Nat)
    (r1resp : Except Int Nat) : XferResult :=
  if priv.selblocklen != blocklen then
    let r := mmcsd_recv_r1 priv r1resp
    if r.1 == OK then ⟨OK, { r.2 with selblocklen := blocklen }, [SdCmd.cmd16 blocklen]⟩
    else ⟨r.1, r.2, [SdCmd.cmd16 blocklen]⟩
  else ⟨OK, priv, []⟩

/-- `mmcsd_setblockcount`: CMD23. -/
def mmcsd_setblockcount (priv : MmcsdState) (nblocks : Nat)
    (r1resp : Except Int Nat) : XferResult :=
  let r := mmcsd_recv_r1 priv r1resp
  ⟨r.1, r.2, [SdCmd.cmd23 nblocks]⟩

/-- `mmcsd_stoptransmission`: CMD12. -/
def mmcsd_stoptransmission (priv : MmcsdState) (r1resp : Except Int Nat) :
    XferResult :=
  let r := mmcsd_recv_r1 priv r1resp
  ⟨r.1, r.2, [SdCmd.cmd12]⟩

/-! ## CSD decoding -/

/-- 32-bit unsigned arithmetic: the `nblocks` expressions of
`mmcsd_decode_csd` are evaluated in `uint32_t` in the source, so every
value stored in `nblocks` is reduced modulo `2^32`. -/
def u32 (n : Nat) : Nat := n % 4294967296

/-- `mmcsd_decode_csd` (debug-only printout compiled out).  `csd0`..`csd3`
are the four 32-bit words `csd[0]`..`csd[3]`. -/
def mmcsd_decode_csd (priv : MmcsdState) (csd0 csd1 csd2 csd3 : Nat) :
    MmcsdState :=
  let _ := csd0
  let readbllen := (csd1 >>> 16) &&& 0xf
  let priv1 : MmcsdState := { priv with dsrimp := (csd1 >>> 12) &&& 1 != 0 }
  let priv2 : MmcsdState :=
    if IS_BLOCK priv1.cardType then
      if IS_MMC priv1.cardType then
        let csize := ((csd1 &&& 0x3ff) <<< 2) ||| ((csd2 >>> 30) &&& 3)
        let csizemult := (csd2 >>> 15) &&& 7
        let p : MmcsdState :=
          { priv1 with blockshift := readbllen, blocksize := 1 <<< readbllen }
        let p : MmcsdState :=
          if csize != MMCSD_CSD_CSIZE_THRESHOLD then
            { p with nblocks0 := u32 ((csize + 1) * (1 <<< (csizemult + 2))) }
          else p
        if p.blocksize > 512 then
          let p : MmcsdState :=
            if csize != MMCSD_CSD_CSIZE_THRESHOLD then
              { p with nblocks0 := u32 (p.nblocks0 <<< (p.blockshift - 9)) }
            else p
          { p with blocksize := 512, blockshift := 9 }
        else p
      else
        let csize := ((csd1 &&& 0x3f) <<< 16) ||| (csd2 >>> 16)
        let p : MmcsdState := { priv1 with blockshift := 9, blocksize := 1 <<< 9 }
        { p with nblocks0 := u32 ((csize + 1) <<< (19 - p.blockshift)) }
    else
      let csize := ((csd1 &&& 0x3ff) <<< 2) ||| ((csd2 >>> 30) &&& 3)
      let csizemult := (csd2 >>> 15) &&& 7
      let p : MmcsdState :=
        { priv1 with nblocks0 := u32 ((csize + 1) * (1 <<< (csizemult + 2))),
                     blockshift := readbllen, blocksize := 1 <<< readbllen }
      if p.blocksize > 512 then
        { p with nblocks0 := u32 (p.nblocks0 <<< (p.blockshift - 9)),
                 blocksize := 512, blockshift := 9 }
      else p
  { priv2 with
    wrprotect := ((csd3 >>> 13) &&& 1 != 0) || ((csd3 >>> 12) &&& 1 != 0) }

/-! ## Transfer engine -/

/-- CMD6 argument built by the four transfer functions for a partition
switch: `MMC_CMD6_MODE(WRITE_BYTE) | MMC_CMD6_INDEX(EXT_CSD_PART_CONF) |
MMC_CMD6_VALUE(partnum)`. -/
def partSwitchArg (partnum : Nat) : Nat :=
  MMC_CMD6_MODE MMC_CMD6_MODE_WRITE_BYTE ||| MMC_CMD6_INDEX EXT_CSD_PART_CONF |||
    MMC_CMD6_VALUE partnum

/-- Host-interaction outcomes consumed by one transfer operation, in
program order. -/
structure TransferOracle where
  /-- `SDIO_PRESENT` during `mmcsd_transferready` (also inside `mmcsd_switch`). -/
  present : Bool
  /-- `SDIO_WRPROTECTED` result used by `mmcsd_wrprotected`. -/
  hostWrprotected : Bool
  /-- `mmcsd_get_r1` outcomes inside the `mmcsd_switch` readiness check. -/
  switchPolls : List (Except Int Nat)
  /-- `SDIO_RECVR1` outcome for CMD6. -/
  switchR1 : Except Int Nat
  /-- `mmcsd_get_r1` outcomes inside this transfer's readiness check. -/
  readyPolls : List (Except Int Nat)
  /-- `SDIO_RECVR1` outcome for CMD16. -/
  blocklenR1 : Except Int Nat
  /-- `SDIO_RECVR1` outcome for CMD55 (SD writes). -/
  cmd55R1 : Except Int Nat
  /-- `SDIO_RECVR1` outcome for ACMD23 (SD writes). -/
  acmd23R1 : Except Int Nat
  /-- `SDIO_RECVR1` outcome for CMD23. -/
  blockcountR1 : Except Int Nat
  /-- `SDIO_RECVR1` outcome for the data command CMD17/18/24/25. -/
  dataR1 : Except Int Nat
  /-- Wakeup event set returned by `SDIO_EVENTWAIT` for the data phase. -/
  wkupevent : Nat
  /-- `SDIO_RECVR1` outcome for CMD12. -/
  stopR1 : Except Int Nat
deriving Repr

/-- `mmcsd_wrprotected`. -/
def mmcsd_wrprotected (priv : MmcsdState) (hostWrprotected : Bool) : Bool :=
  priv.wrprotect || priv.locked || hostWrprotected

/-- Shared prologue of the four transfer functions: the partition switch
(lines 1505-1517 and its three clones).  Returns the failing result or the
state/trace to continue with. -/
def partSwitchStep (priv : MmcsdState) (partnum : Nat) (o : TransferOracle) :
    XferResult ⊕ (MmcsdState × List SdCmd) :=
  if priv.partnum != partnum then
    let r := mmcsd_switch priv (partSwitchArg partnum) o.present o.switchPolls o.switchR1
    if r.ret != OK then Sum.inl ⟨r.ret, r.priv, r.trace⟩
    else Sum.inr ({ r.priv with partnum := partnum }, r.trace)
  else Sum.inr (priv, [])

/-- `mmcsd_readsingle` (non-DMA build). -/
def mmcsd_readsingle (priv : MmcsdState) (partnum startblock : Nat)
    (o : TransferOracle) : XferResult :=
  if priv.locked then ⟨-EPERM, priv, []⟩
  else
    match partSwitchStep priv partnum o with
    | Sum.inl res => res
    | Sum.inr (priv1, tr1) =>
      let t := mmcsd_transferready priv1 o.present o.readyPolls
      if t.1 != OK then ⟨t.1, t.2, tr1⟩
      else
        let priv2 := t.2
        let offset := if IS_BLOCK priv2.cardType then startblock
                      else startblock <<< priv2.blockshift
        let bl := mmcsd_setblocklen priv2 priv2.blocksize o.blocklenR1
        if bl.ret != OK then ⟨bl.ret, bl.priv, tr1 ++ bl.trace⟩
        else
          let tr2 := tr1 ++ bl.trace ++ [SdCmd.cmd17 offset]
          let r := mmcsd_recv_r1 bl.priv o.dataR1
          if r.1 != OK then ⟨r.1, r.2, tr2⟩
          else
            let ev := mmcsd_eventwait (SDIOWAIT_TIMEOUT ||| SDIOWAIT_ERROR) o.wkupevent
            if ev != OK then ⟨ev, r.2, tr2⟩
            else ⟨1, r.2, tr2⟩

/-- CMD23 step shared by the multi-block transfers: when `cond` holds,
issue CMD23 with `arg` and check R1; otherwise pass through. -/
def blockcountStep (p : MmcsdState) (cond : Bool) (arg : Nat)
    (resp : Except Int Nat) (tr : List SdCmd) :
    XferResult ⊕ (MmcsdState × List SdCmd) :=
  if cond then
    let bc := mmcsd_setblockcount p arg resp
    if bc.ret != OK then Sum.inl ⟨bc.ret, bc.priv, tr ++ bc.trace⟩
    else Sum.inr (bc.priv, tr ++ bc.trace)
  else Sum.inr (p, tr)

/-- Issue a write data command (CMD24/CMD25) and check R1 when `cond`
holds; otherwise pass through.  Used for both sides of the
`SDIO_CAPS_DMABEFOREWRITE` ordering (the `SDIO_SENDSETUP` between them is
host-side and untraced). -/
def dataCmdStep (p : MmcsdState) (cond : Bool) (c : SdCmd)
    (resp : Except Int Nat) (tr : List SdCmd) :
    XferResult ⊕ (MmcsdState × List SdCmd) :=
  if cond then
    let r := mmcsd_recv_r1 p resp
    if r.1 != OK then Sum.inl ⟨r.1, r.2, tr ++ [c]⟩
    else Sum.inr (r.2, tr ++ [c])
  else Sum.inr (p, tr)

/-- CMD55 + ACMD23 pre-erase hint for SD multi-block writes. -/
def sdAcmd23Step (p : MmcsdState) (cond : Bool) (n : Nat)
    (r55 ra : Except Int Nat) (tr : List SdCmd) :
    XferResult ⊕ (MmcsdState × List SdCmd) :=
  if cond then
    let a := mmcsd_recv_r1 p r55
    if a.1 != OK then Sum.inl ⟨a.1, a.2, tr ++ [SdCmd.cmd55 (p.rca <<< 16)]⟩
    else
      let b := mmcsd_recv_r1 a.2 ra
      let tr2 := tr ++ [SdCmd.cmd55 (p.rca <<< 16), SdCmd.acmd23 n]
      if b.1 != OK then Sum.inl ⟨b.1, b.2, tr2⟩
      else Sum.inr (b.2, tr2)
  else Sum.inr (p, tr)

/-- `mmcsd_readmultiple` (non-DMA build, `CONFIG_MMCSD_MMCSUPPORT` on). -/
def mmcsd_readmultiple (priv : MmcsdState) (partnum startblock nblocks : Nat)
    (o : TransferOracle) : XferResult :=
  if priv.locked then ⟨-EPERM, priv, []⟩
  else
    match partSwitchStep priv partnum o with
    | Sum.inl res => res
    | Sum.inr (priv1, tr1) =>
      let t := mmcsd_transferready priv1 o.present o.readyPolls
      if t.1 != OK then ⟨t.1, t.2, tr1⟩
      else
        let priv2 := t.2
        let offset := if IS_BLOCK priv2.cardType then startblock
                      else startblock <<< priv2.blockshift
        let bl := mmcsd_setblocklen priv2 priv2.blocksize o.blocklenR1
        if bl.ret != OK then ⟨bl.ret, bl.priv, tr1 ++ bl.trace⟩
        else
          match blockcountStep bl.priv
              (IS_MMC bl.priv.cardType ||
                (IS_SD bl.priv.cardType && bl.priv.cmd23support))
              nblocks o.blockcountR1 (tr1 ++ bl.trace) with
          | Sum.inl res => res
          | Sum.inr (priv3, tr3) =>
            let tr4 := tr3 ++ [SdCmd.cmd18 offset]
            let r := mmcsd_recv_r1 priv3 o.dataR1
            if r.1 != OK then ⟨r.1, r.2, tr4⟩
            else
              let ev := mmcsd_eventwait (SDIOWAIT_TIMEOUT ||| SDIOWAIT_ERROR) o.wkupevent
              if ev != OK then ⟨ev, r.2, tr4⟩
              else
                if IS_SD r.2.cardType && !r.2.cmd23support then
                  let st := mmcsd_stoptransmission r.2 o.stopR1
                  -- CMD12 failure is logged but `ret` is overwritten below
                  ⟨(nblocks : Int), st.priv, tr4 ++ st.trace⟩
                else ⟨(nblocks : Int), r.2, tr4⟩

/-- `mmcsd_writesingle` (non-DMA build). -/
def mmcsd_writesingle (priv : MmcsdState) (partnum startblock : Nat)
    (o : TransferOracle) : XferResult :=
  if mmcsd_wrprotected priv o.hostWrprotected then ⟨-EPERM, priv, []⟩
  else
    match partSwitchStep priv partnum o with
    | Sum.inl res => res
    | Sum.inr (priv1, tr1) =>
      let t := mmcsd_transferready priv1 o.present o.readyPolls
      if t.1 != OK then ⟨t.1, t.2, tr1⟩
      else
        let priv2 := t.2
        let offset := if IS_BLOCK priv2.cardType then startblock
                      else startblock <<< priv2.blockshift
        let bl := mmcsd_setblocklen priv2 priv2.blocksize o.blocklenR1
        if bl.ret != OK then ⟨bl.ret, bl.priv, tr1 ++ bl.trace⟩
        else
          match dataCmdStep bl.priv (!bl.priv.capsDmaBeforeWrite)
              (SdCmd.cmd24 offset) o.dataR1 (tr1 ++ bl.trace) with
          | Sum.inl res => res
          | Sum.inr (priv3, tr3) =>
            match dataCmdStep priv3 priv3.capsDmaBeforeWrite
                (SdCmd.cmd24 offset) o.dataR1 tr3 with
            | Sum.inl res => res
            | Sum.inr (priv4, tr4) =>
              let ev := mmcsd_eventwait (SDIOWAIT_TIMEOUT ||| SDIOWAIT_ERROR) o.wkupevent
              if ev != OK then ⟨ev, priv4, tr4⟩
              else ⟨1, { priv4 with wrbusy := true }, tr4⟩

/-- `mmcsd_writemultiple` (non-DMA build, `CONFIG_MMCSD_MMCSUPPORT` on). -/
def mmcsd_writemultiple (priv : MmcsdState) (partnum startblock nblocks : Nat)
    (o : TransferOracle) : XferResult :=
  if mmcsd_wrprotected priv o.hostWrprotected then ⟨-EPERM, priv, []⟩
  else
    match partSwitchStep priv partnum o with
    | Sum.inl res => res
    | Sum.inr (priv1, tr1) =>
      let t := mmcsd_transferready priv1 o.present o.readyPolls
      if t.1 != OK then ⟨t.1, t.2, tr1⟩
      else
        let priv2 := t.2
        let offset := if IS_BLOCK priv2.cardType then startblock
                      else startblock <<< priv2.blockshift
        let bl := mmcsd_setblocklen priv2 priv2.blocksize o.blocklenR1
        if bl.ret != OK then ⟨bl.ret, bl.priv, tr1 ++ bl.trace⟩
        else
          -- SD: CMD55 + ACMD23 pre-erase hint
          match sdAcmd23Step bl.priv (IS_SD bl.priv.cardType) nblocks
              o.cmd55R1 o.acmd23R1 (tr1 ++ bl.trace) with
          | Sum.inl res => res
          | Sum.inr (priv3, tr3) =>
            -- MMC: CMD23 (bit 31 set for RPMB); else plain CMD23 for an SD
            -- card with cmd23support (the two source branches fold into one
            -- step: the RPMB bit can only be set on the MMC branch)
            match blockcountStep priv3
                (IS_MMC priv3.cardType ||
                  (IS_SD priv3.cardType && priv3.cmd23support))
                (if IS_MMC priv3.cardType && priv3.partnum == MMCSD_PART_RPMB
                 then (1 <<< 31) ||| nblocks else nblocks)
                o.blockcountR1 tr3 with
            | Sum.inl res => res
            | Sum.inr (priv4, tr4) =>
              match dataCmdStep priv4 (!priv4.capsDmaBeforeWrite)
                  (SdCmd.cmd25 offset) o.dataR1 tr4 with
              | Sum.inl res => res
              | Sum.inr (priv5, tr5) =>
                match dataCmdStep priv5 priv5.capsDmaBeforeWrite
                    (SdCmd.cmd25 offset) o.dataR1 tr5 with
                | Sum.inl res => res
                | Sum.inr (priv6, tr6) =>
                  let evret := mmcsd_eventwait
                    (SDIOWAIT_TIMEOUT ||| SDIOWAIT_ERROR) o.wkupevent
                  if IS_SD priv6.cardType && !priv6.cmd23support then
                    -- STOP_TRANSMISSION is issued even on event failure;
                    -- the event error then wins over the CMD12 result
                    let st := mmcsd_stoptransmission priv6 o.stopR1
                    if evret != OK then ⟨evret, st.priv, tr6 ++ st.trace⟩
                    else if st.ret != OK then ⟨st.ret, st.priv, tr6 ++ st.trace⟩
                    else ⟨(nblocks : Int), { st.priv with wrbusy := true },
                          tr6 ++ st.trace⟩
                  else
                    if evret != OK then ⟨evret, priv6, tr6⟩
                    else ⟨(nblocks : Int), { priv6 with wrbusy := true }, tr6⟩

/-! ## Raw CMD56 pass-through, read direction -/

/-- `mmcsd_general_cmd_read` (non-DMA build).  NOTE: the final statement of
the source function is `return OK;`, not `return ret;` — the embedded
function reproduces that faithfully. -/
def mmcsd_general_cmd_read (priv : MmcsdState) (startblock : Nat)
    (o : TransferOracle) : XferResult :=
  if priv.locked then ⟨-EPERM, priv, []⟩
  else
    let t := mmcsd_transferready priv o.present o.readyPolls
    if t.1 != OK then ⟨OK, t.2, []⟩
    else
      let bl := mmcsd_setblocklen t.2 t.2.blocksize o.blocklenR1
      if bl.ret != OK then ⟨OK, bl.priv, bl.trace⟩
      else
        let tr := bl.trace ++ [SdCmd.cmd56rd startblock]
        let r := mmcsd_recv_r1 bl.priv o.dataR1
        if r.1 != OK then ⟨OK, r.2, tr⟩
        else
          let ev := mmcsd_eventwait (SDIOWAIT_TIMEOUT ||| SDIOWAIT_ERROR) o.wkupevent
          let _ := ev
          ⟨OK, r.2, tr⟩

/-! ## Block-device facade: request chunking -/

/-- One chunk of a facade read/write request: the single-block path
(CMD17/CMD24) or the multi-block path (CMD18/CMD25) with its count. -/
inductive RwOp where
  | single (sector : Nat)
  | multi (sector : Nat) (count : Nat)
deriving Repr, DecidableEq

/-- Blocks moved by a chunk. -/
def RwOp.count : RwOp → Nat
  | .single _ => 1
  | .multi _ n => n

/-- The chunking loop of `mmcsd_read` / `mmcsd_write`
(`MMCSD_MULTIBLOCK_LIMIT != 1` build; in the source the limit is a positive
compile-time constant, here a parameter), with every chunk transfer
succeeding. -/
def mmcsd_read_loop (limit sector endsector : Nat) : List RwOp :=
  if h : sector < endsector ∧ 0 < limit then
    let nread := min (endsector - sector) limit
    let op := if nread == 1 then RwOp.single sector else RwOp.multi sector nread
    op :: mmcsd_read_loop limit (sector + nread) endsector
  else []
termination_by endsector - sector
decreasing_by
  have h1 : 0 < min (endsector - sector) limit := by
    exact lt_min_iff.mpr ⟨Nat.sub_pos_of_lt h.1, h.2⟩
  omega

/-- Chunk sizes as the spec words them (§4.8): successive chunks of size
`min(remaining, MULTIBLOCK_LIMIT)`.  This definition follows the spec's
words, to be compared with `mmcsd_read_loop` from the source. -/
def spec_chunks (limit n : Nat) : List Nat :=
  if h : 0 < n ∧ 0 < limit then
    min n limit :: spec_chunks limit (n - min n limit)
  else []
termination_by n
decreasing_by
  have h1 : 0 < min n limit := lt_min_iff.mpr ⟨h.1, h.2⟩
  omega

/-! ## Derived view of a command primitive -/

/-- The return value of `mmcsd_recv_r1`, which does not depend on the slot
state (the state is only written to record `CARD_IS_LOCKED`). -/
def recvR1ret (resp : Except Int Nat) : Int :=
  match resp with
  | .error e => e
  | .ok r1 => if r1 &&& MMCSD_R1_ERRORMASK != 0 then -EIOcode else OK

/-! ## Concrete slot states and oracles used by witnesses -/

/-- A block-addressed SD v2 card in transfer state, partition 0 selected. -/
def sdv2BlockState : MmcsdState :=
  { cardType := MMCSD_CARDTYPE_SDV2 ||| MMCSD_CARDTYPE_BLOCK
    locked := false, wrprotect := false, wrbusy := false
    selblocklen := 512, blocksize := 512, blockshift := 9
    partnum := 0, cmd23support := true, dsrimp := false
    nblocks0 := 0, rca := 0x1234, capsDmaBeforeWrite := false }

/-- Same card without CMD23 support (multi-block transfers need CMD12). -/
def sdNoCmd23State : MmcsdState := { sdv2BlockState with cmd23support := false }

/-- A byte-addressed SD v1 card. -/
def sdv1ByteState : MmcsdState := { sdv2BlockState with
  cardType := MMCSD_CARDTYPE_SDV1, cmd23support := false }

/-- A card that still has a write pending (`wrbusy`). -/
def wrbusySdState : MmcsdState := { sdv2BlockState with wrbusy := true }

/-- An oracle on which every host interaction succeeds. -/
def okOracle : TransferOracle :=
  { present := true, hostWrprotected := false
    switchPolls := [], switchR1 := .ok 0
    readyPolls := [], blocklenR1 := .ok 0
    cmd55R1 := .ok 0, acmd23R1 := .ok 0, blockcountR1 := .ok 0
    dataR1 := .ok 0, wkupevent := SDIOWAIT_TRANSFERDONE, stopR1 := .ok 0 }

/-- All-success oracle except that the data-phase event wait times out. -/
def evFailOracle : TransferOracle := { okOracle with wkupevent := SDIOWAIT_TIMEOUT }

/-- All-success oracle except that CMD12 fails at the host. -/
def stopFailOracle : TransferOracle := { okOracle with stopR1 := .error (-EIOcode) }

/-- All-success oracle except that the event wait times out and CMD12 also
fails. -/
def evStopFailOracle : TransferOracle :=
  { okOracle with wkupevent := SDIOWAIT_TIMEOUT, stopR1 := .error (-EIOcode) }

/-- All-success oracle with the card absent from the slot. -/
def absentOracle : TransferOracle := { okOracle with present := false }

/-! ## Helper lemmas -/

/-- `mmcsd_recv_r1` only ever writes the `locked` field. -/
theorem mmcsd_recv_r1_pres (p : MmcsdState) (r : Except Int Nat) :
    (mmcsd_recv_r1 p r).2.cardType = p.cardType ∧
    (mmcsd_recv_r1 p r).2.wrbusy = p.wrbusy ∧
    (mmcsd_recv_r1 p r).2.selblocklen = p.selblocklen ∧
    (mmcsd_recv_r1 p r).2.blocksize = p.blocksize ∧
    (mmcsd_recv_r1 p r).2.blockshift = p.blockshift ∧
    (mmcsd_recv_r1 p r).2.partnum = p.partnum ∧
    (mmcsd_recv_r1 p r).2.cmd23support = p.cmd23support ∧
    (mmcsd_recv_r1 p r).2.rca = p.rca ∧
    (mmcsd_recv_r1 p r).2.capsDmaBeforeWrite = p.capsDmaBeforeWrite ∧
    (mmcsd_recv_r1 p r).2.wrprotect = p.wrprotect := by
  unfold mmcsd_recv_r1
  cases r <;> simp <;> split <;> simp

/-- The return value of `mmcsd_recv_r1` does not depend on the slot state. -/
theorem mmcsd_recv_r1_ret (p : MmcsdState) (r : Except Int Nat) :
    (mmcsd_recv_r1 p r).1 = recvR1ret r := by
  unfold mmcsd_recv_r1 recvR1ret
  cases r <;> simp <;> split <;> simp

/-- `mmcsd_get_r1` only ever writes the `locked` field. -/
theorem mmcsd_get_r1_pres (p : MmcsdState) (r : Except Int Nat) :
    (mmcsd_get_r1 p r).2.1.cardType = p.cardType ∧
    (mmcsd_get_r1 p r).2.1.wrbusy = p.wrbusy ∧
    (mmcsd_get_r1 p r).2.1.selblocklen = p.selblocklen ∧
    (mmcsd_get_r1 p r).2.1.blocksize = p.blocksize ∧
    (mmcsd_get_r1 p r).2.1.blockshift = p.blockshift ∧
    (mmcsd_get_r1 p r).2.1.partnum = p.partnum ∧
    (mmcsd_get_r1 p r).2.1.cmd23support = p.cmd23support ∧
    (mmcsd_get_r1 p r).2.1.rca = p.rca ∧
    (mmcsd_get_r1 p r).2.1.capsDmaBeforeWrite = p.capsDmaBeforeWrite ∧
    (mmcsd_get_r1 p r).2.1.wrprotect = p.wrprotect := by
  unfold mmcsd_get_r1
  cases r <;> simp <;> split <;> simp

/-- `mmcsd_recv_r1` only ever writes the `locked` field (shape form). -/
theorem mmcsd_recv_r1_shape (p : MmcsdState) (r : Except Int Nat) :
    ∃ l, (mmcsd_recv_r1 p r).2 = { p with locked := l } := by
  unfold mmcsd_recv_r1
  cases r with
  | error e => exact ⟨p.locked, rfl⟩
  | ok r1 =>
    dsimp only
    split
    · exact ⟨_, rfl⟩
    · exact ⟨p.locked, rfl⟩

/-- `mmcsd_get_r1` only ever writes the `locked` field (shape form). -/
theorem mmcsd_get_r1_shape (p : MmcsdState) (r : Except Int Nat) :
    ∃ l, (mmcsd_get_r1 p r).2.1 = { p with locked := l } := by
  unfold mmcsd_get_r1
  cases r with
  | error e => exact ⟨p.locked, rfl⟩
  | ok r1 =>
    dsimp only
    split
    · exact ⟨_, rfl⟩
    · exact ⟨p.locked, rfl⟩

/-- The readiness poll loop only ever writes `locked` and `wrbusy`. -/
theorem transferready_loop_shape (polls : List (Except Int Nat)) (p : MmcsdState) :
    ∃ l w, (transferready_loop p polls).2 = { p with locked := l, wrbusy := w } := by
  induction polls generalizing p with
  | nil => exact ⟨p.locked, p.wrbusy, rfl⟩
  | cons r rest ih =>
    obtain ⟨l1, h1⟩ := mmcsd_get_r1_shape p r
    unfold transferready_loop
    dsimp only
    split
    · exact ⟨l1, p.wrbusy, by rw [h1]⟩
    · split
      · exact ⟨l1, false, by rw [h1]⟩
      · split
        · exact ⟨l1, p.wrbusy, by rw [h1]⟩
        · obtain ⟨l, w, h2⟩ := ih (mmcsd_get_r1 p r).2.1
          rw [h1] at h2 ⊢
          exact ⟨l, w, h2⟩

/-- `mmcsd_transferready` only ever writes `locked` and `wrbusy`. -/
theorem mmcsd_transferready_shape (p : MmcsdState) (present : Bool)
    (polls : List (Except Int Nat)) :
    ∃ l w, (mmcsd_transferready p present polls).2 =
      { p with locked := l, wrbusy := w } := by
  unfold mmcsd_transferready
  split
  · exact ⟨p.locked, p.wrbusy, rfl⟩
  · split
    · exact ⟨p.locked, p.wrbusy, rfl⟩
    · exact transferready_loop_shape polls p

/-- Fields of the slot state preserved by `mmcsd_transferready`
(projection form). -/
theorem mmcsd_transferready_pres (p : MmcsdState) (present : Bool)
    (polls : List (Except Int Nat)) :
    (mmcsd_transferready p present polls).2.cardType = p.cardType ∧
    (mmcsd_transferready p present polls).2.selblocklen = p.selblocklen ∧
    (mmcsd_transferready p present polls).2.blocksize = p.blocksize ∧
    (mmcsd_transferready p present polls).2.blockshift = p.blockshift ∧
    (mmcsd_transferready p present polls).2.partnum = p.partnum ∧
    (mmcsd_transferready p present polls).2.cmd23support = p.cmd23support ∧
    (mmcsd_transferready p present polls).2.rca = p.rca ∧
    (mmcsd_transferready p present polls).2.capsDmaBeforeWrite = p.capsDmaBeforeWrite ∧
    (mmcsd_transferready p present polls).2.wrprotect = p.wrprotect := by
  obtain ⟨l, w, h⟩ := mmcsd_transferready_shape p present polls
  rw [h]
  simp

/-- `mmcsd_switch` only ever writes `locked` and `wrbusy`. -/
theorem mmcsd_switch_shape (p : MmcsdState) (arg : Nat) (present : Bool)
    (polls : List (Except Int Nat)) (r1resp : Except Int Nat) :
    ∃ l w, (mmcsd_switch p arg present polls r1resp).priv =
      { p with locked := l, wrbusy := w } := by
  unfold mmcsd_switch
  obtain ⟨l0, w0, h0⟩ := mmcsd_transferready_shape p present polls
  dsimp only
  split
  · exact ⟨l0, w0, h0⟩
  · rw [h0]
    obtain ⟨l1, h1⟩ := mmcsd_recv_r1_shape
      { p with locked := l0, wrbusy := true } r1resp
    exact ⟨l1, true, h1⟩

/-- Fields preserved by `mmcsd_switch` (projection form). -/
theorem mmcsd_switch_pres (p : MmcsdState) (arg : Nat) (present : Bool)
    (polls : List (Except Int Nat)) (r1resp : Except Int Nat) :
    (mmcsd_switch p arg present polls r1resp).priv.cardType = p.cardType ∧
    (mmcsd_switch p arg present polls r1resp).priv.selblocklen = p.selblocklen ∧
    (mmcsd_switch p arg present polls r1resp).priv.blocksize = p.blocksize ∧
    (mmcsd_switch p arg present polls r1resp).priv.blockshift = p.blockshift ∧
    (mmcsd_switch p arg present polls r1resp).priv.partnum = p.partnum ∧
    (mmcsd_switch p arg present polls r1resp).priv.cmd23support = p.cmd23support ∧
    (mmcsd_switch p arg present polls r1resp).priv.rca = p.rca ∧
    (mmcsd_switch p arg present polls r1resp).priv.capsDmaBeforeWrite =
      p.capsDmaBeforeWrite ∧
    (mmcsd_switch p arg present polls r1resp).priv.wrprotect = p.wrprotect := by
  obtain ⟨l, w, h⟩ := mmcsd_switch_shape p arg present polls r1resp
  rw [h]
  simp

/-- The trace of `mmcsd_switch` is empty (readiness failure) or exactly the
CMD6. -/
theorem mmcsd_switch_trace (p : MmcsdState) (arg : Nat) (present : Bool)
    (polls : List (Except Int Nat)) (r1resp : Except Int Nat) :
    (mmcsd_switch p arg present polls r1resp).trace = [] ∨
    (mmcsd_switch p arg present polls r1resp).trace = [SdCmd.cmd6 arg] := by
  unfold mmcsd_switch
  dsimp only
  split
  · exact Or.inl rfl
  · exact Or.inr rfl

/-- A successful `partSwitchStep` leaves the target partition selected,
changes at most `locked`/`wrbusy` otherwise, and its trace is empty or
exactly the encoded CMD6. -/
theorem partSwitchStep_inr (p : MmcsdState) (n : Nat) (o : TransferOracle)
    (q : MmcsdState) (tr : List SdCmd)
    (h : partSwitchStep p n o = Sum.inr (q, tr)) :
    (tr = [] ∨ tr = [SdCmd.cmd6 (partSwitchArg n)]) ∧
    (∃ l w, q = { p with locked := l, wrbusy := w, partnum := n }) := by
  unfold partSwitchStep at h
  by_cases hp : p.partnum = n
  · rw [if_neg (by simp [hp])] at h
    simp only [Sum.inr.injEq, Prod.mk.injEq] at h
    exact ⟨Or.inl h.2.symm, p.locked, p.wrbusy, by rw [← h.1, ← hp]⟩
  · rw [if_pos (by simp [hp])] at h
    dsimp only at h
    split at h
    · exact absurd h (by simp)
    · simp only [Sum.inr.injEq, Prod.mk.injEq] at h
      obtain ⟨l, w, hq⟩ := mmcsd_switch_shape p (partSwitchArg n) o.present
        o.switchPolls o.switchR1
      constructor
      · rw [← h.2]
        rcases mmcsd_switch_trace p (partSwitchArg n) o.present o.switchPolls
          o.switchR1 with ht | ht
        · exact Or.inl ht
        · exact Or.inr ht
      · exact ⟨l, w, by rw [← h.1, hq]⟩

/-- The trace of a failing `partSwitchStep` is empty or exactly the CMD6. -/
theorem partSwitchStep_inl (p : MmcsdState) (n : Nat) (o : TransferOracle)
    (res : XferResult) (h : partSwitchStep p n o = Sum.inl res) :
    res.trace = [] ∨ res.trace = [SdCmd.cmd6 (partSwitchArg n)] := by
  unfold partSwitchStep at h
  split at h
  · dsimp only at h
    split at h
    · rcases mmcsd_switch_trace p (partSwitchArg n) o.present o.switchPolls
        o.switchR1 with ht | ht <;>
        rw [← Sum.inl.inj h] <;> simp [ht]
    · exact absurd h (by simp)
  · exact absurd h (by simp)

/-- `mmcsd_setblocklen` only ever writes `locked` and `selblocklen`. -/
theorem mmcsd_setblocklen_shape (p : MmcsdState) (b : Nat) (r : Except Int Nat) :
    ∃ l s, (mmcsd_setblocklen p b r).priv =
      { p with locked := l, selblocklen := s } := by
  unfold mmcsd_setblocklen
  dsimp only
  split
  · obtain ⟨l, hl⟩ := mmcsd_recv_r1_shape p r
    split
    · exact ⟨l, b, by rw [hl]⟩
    · exact ⟨l, p.selblocklen, by rw [hl]⟩
  · exact ⟨p.locked, p.selblocklen, rfl⟩

/-- The trace of `mmcsd_setblocklen` is empty (cached length) or exactly the
CMD16. -/
theorem mmcsd_setblocklen_trace (p : MmcsdState) (b : Nat) (r : Except Int Nat) :
    (mmcsd_setblocklen p b r).trace = [] ∨
    (mmcsd_setblocklen p b r).trace = [SdCmd.cmd16 b] := by
  unfold mmcsd_setblocklen
  dsimp only
  split
  · split
    · exact Or.inr rfl
    · exact Or.inr rfl
  · exact Or.inl rfl

/-- `mmcsd_setblocklen` succeeds whenever the CMD16 response is clean. -/
theorem mmcsd_setblocklen_ret_ok (p : MmcsdState) (b : Nat) (r : Except Int Nat)
    (h : recvR1ret r = OK) : (mmcsd_setblocklen p b r).ret = OK := by
  unfold mmcsd_setblocklen
  have hr := mmcsd_recv_r1_ret p r
  dsimp only
  split
  · rw [if_pos (by rw [hr, h]; rfl)]
  · rfl

/-- `mmcsd_setblockcount`: result view. -/
theorem mmcsd_setblockcount_view (p : MmcsdState) (n : Nat) (r : Except Int Nat) :
    (mmcsd_setblockcount p n r).ret = recvR1ret r ∧
    (mmcsd_setblockcount p n r).trace = [SdCmd.cmd23 n] ∧
    ∃ l, (mmcsd_setblockcount p n r).priv = { p with locked := l } := by
  obtain ⟨l, hl⟩ := mmcsd_recv_r1_shape p r
  exact ⟨mmcsd_recv_r1_ret p r, rfl, l, hl⟩

/-- `mmcsd_stoptransmission`: result view. -/
theorem mmcsd_stoptransmission_view (p : MmcsdState) (r : Except Int Nat) :
    (mmcsd_stoptransmission p r).ret = recvR1ret r ∧
    (mmcsd_stoptransmission p r).trace = [SdCmd.cmd12] ∧
    ∃ l, (mmcsd_stoptransmission p r).priv = { p with locked := l } := by
  obtain ⟨l, hl⟩ := mmcsd_recv_r1_shape p r
  exact ⟨mmcsd_recv_r1_ret p r, rfl, l, hl⟩

/-- Failing `blockcountStep`: the CMD23 was issued and its R1 failed. -/
theorem blockcountStep_inl (p : MmcsdState) (cond : Bool) (arg : Nat)
    (resp : Except Int Nat) (tr : List SdCmd) (res : XferResult)
    (h : blockcountStep p cond arg resp tr = Sum.inl res) :
    res.trace = tr ++ [SdCmd.cmd23 arg] ∧ res.ret = recvR1ret resp ∧
    recvR1ret resp ≠ OK ∧ ∃ l, res.priv = { p with locked := l } := by
  have hv := mmcsd_setblockcount_view p arg resp
  obtain ⟨l, hl⟩ := hv.2.2
  unfold blockcountStep at h
  split at h
  · dsimp only at h
    split at h
    · rename_i hret
      rw [← Sum.inl.inj h]
      refine ⟨by rw [hv.2.1], hv.1, ?_, l, hl⟩
      rw [← hv.1]
      simpa using hret
    · exact absurd h (by simp)
  · exact absurd h (by simp)

/-- Passing `blockcountStep`: either no CMD23 at all or a clean one. -/
theorem blockcountStep_inr (p : MmcsdState) (cond : Bool) (arg : Nat)
    (resp : Except Int Nat) (tr : List SdCmd) (q : MmcsdState)
    (tr' : List SdCmd)
    (h : blockcountStep p cond arg resp tr = Sum.inr (q, tr')) :
    (tr' = tr ∨ tr' = tr ++ [SdCmd.cmd23 arg]) ∧
    ∃ l, q = { p with locked := l } := by
  have hv := mmcsd_setblockcount_view p arg resp
  obtain ⟨l, hl⟩ := hv.2.2
  unfold blockcountStep at h
  split at h
  · dsimp only at h
    split at h
    · exact absurd h (by simp)
    · simp only [Sum.inr.injEq, Prod.mk.injEq] at h
      exact ⟨Or.inr (by rw [← h.2, hv.2.1]), l, by rw [← h.1, hl]⟩
  · simp only [Sum.inr.injEq, Prod.mk.injEq] at h
    exact ⟨Or.inl h.2.symm, p.locked, by rw [← h.1]⟩

/-- Failing `dataCmdStep`: the data command was issued and its R1 failed. -/
theorem dataCmdStep_inl (p : MmcsdState) (cond : Bool) (c : SdCmd)
    (resp : Except Int Nat) (tr : List SdCmd) (res : XferResult)
    (h : dataCmdStep p cond c resp tr = Sum.inl res) :
    res.trace = tr ++ [c] ∧ res.ret = recvR1ret resp ∧ recvR1ret resp ≠ OK ∧
    ∃ l, res.priv = { p with locked := l } := by
  obtain ⟨l, hl⟩ := mmcsd_recv_r1_shape p resp
  have hr := mmcsd_recv_r1_ret p resp
  unfold dataCmdStep at h
  split at h
  · dsimp only at h
    split at h
    · rename_i hret
      rw [← Sum.inl.inj h]
      refine ⟨rfl, hr, ?_, l, hl⟩
      rw [← hr]
      simpa using hret
    · exact absurd h (by simp)
  · exact absurd h (by simp)

/-- Passing `dataCmdStep`: either skipped or a clean data command. -/
theorem dataCmdStep_inr (p : MmcsdState) (cond : Bool) (c : SdCmd)
    (resp : Except Int Nat) (tr : List SdCmd) (q : MmcsdState)
    (tr' : List SdCmd)
    (h : dataCmdStep p cond c resp tr = Sum.inr (q, tr')) :
    (tr' = tr ∨ tr' = tr ++ [c]) ∧ ∃ l, q = { p with locked := l } := by
  obtain ⟨l, hl⟩ := mmcsd_recv_r1_shape p resp
  unfold dataCmdStep at h
  split at h
  · dsimp only at h
    split at h
    · exact absurd h (by simp)
    · simp only [Sum.inr.injEq, Prod.mk.injEq] at h
      exact ⟨Or.inr h.2.symm, l, by rw [← h.1, hl]⟩
  · simp only [Sum.inr.injEq, Prod.mk.injEq] at h
    exact ⟨Or.inl h.2.symm, p.locked, by rw [← h.1]⟩

/-- `dataCmdStep` with the command enabled and a clean R1 response passes
through with the command appended. -/
theorem dataCmdStep_ok (p : MmcsdState) (c : SdCmd) (resp : Except Int Nat)
    (tr : List SdCmd) (hr : recvR1ret resp = OK) :
    dataCmdStep p true c resp tr =
      Sum.inr ((mmcsd_recv_r1 p resp).2, tr ++ [c]) := by
  unfold dataCmdStep
  have h1 := mmcsd_recv_r1_ret p resp
  rw [if_pos rfl, if_neg (by simp [h1, hr])]

/-- Failing `sdAcmd23Step`: trace holds the CMD55, possibly the ACMD23. -/
theorem sdAcmd23Step_inl (p : MmcsdState) (cond : Bool) (n : Nat)
    (r55 ra : Except Int Nat) (tr : List SdCmd) (res : XferResult)
    (h : sdAcmd23Step p cond n r55 ra tr = Sum.inl res) :
    (res.trace = tr ++ [SdCmd.cmd55 (p.rca <<< 16)] ∨
     res.trace = tr ++ [SdCmd.cmd55 (p.rca <<< 16), SdCmd.acmd23 n]) ∧
    ∃ l, res.priv = { p with locked := l } := by
  obtain ⟨l1, hl1⟩ := mmcsd_recv_r1_shape p r55
  unfold sdAcmd23Step at h
  split at h
  · dsimp only at h
    split at h
    · rw [← Sum.inl.inj h]
      exact ⟨Or.inl rfl, l1, hl1⟩
    · split at h
      · obtain ⟨l2, hl2⟩ := mmcsd_recv_r1_shape (mmcsd_recv_r1 p r55).2 ra
        rw [← Sum.inl.inj h]
        refine ⟨Or.inr rfl, l2, ?_⟩
        rw [hl2, hl1]
      · exact absurd h (by simp)
  · exact absurd h (by simp)

/-- Passing `sdAcmd23Step`: either skipped (non-SD) or both commands clean. -/
theorem sdAcmd23Step_inr (p : MmcsdState) (cond : Bool) (n : Nat)
    (r55 ra : Except Int Nat) (tr : List SdCmd) (q : MmcsdState)
    (tr' : List SdCmd)
    (h : sdAcmd23Step p cond n r55 ra tr = Sum.inr (q, tr')) :
    (tr' = tr ∨ tr' = tr ++ [SdCmd.cmd55 (p.rca <<< 16), SdCmd.acmd23 n]) ∧
    ∃ l, q = { p with locked := l } := by
  obtain ⟨l1, hl1⟩ := mmcsd_recv_r1_shape p r55
  unfold sdAcmd23Step at h
  split at h
  · dsimp only at h
    split at h
    · exact absurd h (by simp)
    · split at h
      · exact absurd h (by simp)
      · obtain ⟨l2, hl2⟩ := mmcsd_recv_r1_shape (mmcsd_recv_r1 p r55).2 ra
        simp only [Sum.inr.injEq, Prod.mk.injEq] at h
        exact ⟨Or.inr h.2.symm, l2, by rw [← h.1, hl2, hl1]⟩
  · simp only [Sum.inr.injEq, Prod.mk.injEq] at h
    exact ⟨Or.inl h.2.symm, p.locked, by rw [← h.1]⟩

/-- `dataCmdStep` with the command disabled passes through unchanged. -/
theorem dataCmdStep_skip (p : MmcsdState) (c : SdCmd) (resp : Except Int Nat)
    (tr : List SdCmd) : dataCmdStep p false c resp tr = Sum.inr (p, tr) := by
  simp [dataCmdStep]

/-- `blockcountStep` with the command disabled passes through unchanged. -/
theorem blockcountStep_skip (p : MmcsdState) (arg : Nat)
    (resp : Except Int Nat) (tr : List SdCmd) :
    blockcountStep p false arg resp tr = Sum.inr (p, tr) := by
  simp [blockcountStep]

/-- `blockcountStep` with the command enabled and a clean R1 passes through
with the CMD23 appended. -/
theorem blockcountStep_ok (p : MmcsdState) (arg : Nat) (resp : Except Int Nat)
    (tr : List SdCmd) (hr : recvR1ret resp = OK) :
    blockcountStep p true arg resp tr =
      Sum.inr ((mmcsd_setblockcount p arg resp).priv,
               tr ++ [SdCmd.cmd23 arg]) := by
  have hv := mmcsd_setblockcount_view p arg resp
  unfold blockcountStep
  rw [if_pos rfl, if_neg (by simp [hv.1, hr])]
  rw [hv.2.1]

/-- `sdAcmd23Step` on an SD card with clean CMD55 and ACMD23 responses
passes through with both commands appended. -/
theorem sdAcmd23Step_ok (p : MmcsdState) (n : Nat) (r55 ra : Except Int Nat)
    (tr : List SdCmd) (h1 : recvR1ret r55 = OK) (h2 : recvR1ret ra = OK) :
    sdAcmd23Step p true n r55 ra tr =
      Sum.inr ((mmcsd_recv_r1 (mmcsd_recv_r1 p r55).2 ra).2,
               tr ++ [SdCmd.cmd55 (p.rca <<< 16), SdCmd.acmd23 n]) := by
  unfold sdAcmd23Step
  rw [if_pos rfl]
  dsimp only
  rw [if_neg (by simp [mmcsd_recv_r1_ret, h1]),
      if_neg (by simp [mmcsd_recv_r1_ret, h2])]

/-- Two consecutive `mmcsd_recv_r1` calls still only write `locked`. -/
theorem recv_r1_twice_shape (p : MmcsdState) (r1 r2 : Except Int Nat) :
    ∃ l, (mmcsd_recv_r1 (mmcsd_recv_r1 p r1).2 r2).2 = { p with locked := l } := by
  obtain ⟨a, hA⟩ := mmcsd_recv_r1_shape p r1
  obtain ⟨b, hB⟩ := mmcsd_recv_r1_shape (mmcsd_recv_r1 p r1).2 r2
  exact ⟨b, by rw [hB, hA]⟩

/-! ## C10 -/

/-- C10: whenever the initial transfer-ready check inside `mmcsd_switch`
succeeds, CMD6 is issued and `wrbusy` is set to true before the R1 response
is examined, so `wrbusy` is true afterwards whatever the CMD6 outcome. -/
theorem C10_theorem (priv : MmcsdState) (arg : Nat) (present : Bool)
    (polls : List (Except Int Nat)) (r1resp : Except Int Nat)
    (h : (mmcsd_transferready priv present polls).1 = OK) :
    (mmcsd_switch priv arg present polls r1resp).priv.wrbusy = true ∧
    (mmcsd_switch priv arg present polls r1resp).trace = [SdCmd.cmd6 arg] := by
  unfold mmcsd_switch
  have hp := mmcsd_recv_r1_pres
    { (mmcsd_transferready priv present polls).2 with wrbusy := true } r1resp
  simp [h, hp.2.1]

/-- Witness for C10 at a concrete populated slot; the CMD6 response is an
R1 with error bits, yet `wrbusy` ends up true. -/
theorem C10_witness :
    (mmcsd_transferready sdv2BlockState true []).1 = OK ∧
    (mmcsd_switch sdv2BlockState (partSwitchArg 1) true []
      (Except.ok 0xffffffff)).priv.wrbusy = true :=
  ⟨by decide,
   (C10_theorem sdv2BlockState (partSwitchArg 1) true [] (Except.ok 0xffffffff)
     (by decide)).1⟩

/-- A clean PRG or RCV status poll is consumed with no effect on the slot
state: the loop retries. -/
theorem transferready_loop_skip (p : MmcsdState) (r1 : Nat)
    (rest : List (Except Int Nat)) (herr : r1 &&& MMCSD_R1_ERRORMASK = 0)
    (hst : IS_STATE r1 MMCSD_R1_STATE_PRG = true ∨
           IS_STATE r1 MMCSD_R1_STATE_RCV = true) :
    transferready_loop p (.ok r1 :: rest) = transferready_loop p rest := by
  have hnt : IS_STATE r1 MMCSD_R1_STATE_TRAN = false := by
    rcases hst with h | h <;>
      · simp only [IS_STATE, beq_iff_eq] at h
        simp only [IS_STATE, beq_eq_false_iff_ne, ne_eq, h]
        decide
  conv_lhs => rw [transferready_loop]
  rcases hst with h | h <;> simp [mmcsd_get_r1, herr, hnt, h, OK]

/-! ## C4 -/

/-- C4: the `mmcsd_transferready` contract: `-ENODEV` for an unknown type or
absent card; immediate success when `wrbusy` is clear; on a clean status
poll, success and `wrbusy := false` in TRAN state, a retry (the poll is
consumed with no other effect) in PRG or RCV state, `-EINVAL` in any other
state; and `-ETIMEDOUT` when the one-tick-second budget of polls is
exhausted. -/
theorem C4_theorem :
    (∀ (priv : MmcsdState) (present : Bool) (polls : List (Except Int Nat)),
      (IS_EMPTY priv = true ∨ present = false) →
      (mmcsd_transferready priv present polls).1 = -ENODEV) ∧
    (∀ (priv : MmcsdState) (present : Bool) (polls : List (Except Int Nat)),
      IS_EMPTY priv = false → present = true → priv.wrbusy = false →
      mmcsd_transferready priv present polls = (OK, priv)) ∧
    (∀ (priv : MmcsdState) (present : Bool) (r1 : Nat)
        (rest : List (Except Int Nat)),
      IS_EMPTY priv = false → present = true → priv.wrbusy = true →
      r1 &&& MMCSD_R1_ERRORMASK = 0 → IS_STATE r1 MMCSD_R1_STATE_TRAN = true →
      (mmcsd_transferready priv present (.ok r1 :: rest)).1 = OK ∧
      (mmcsd_transferready priv present (.ok r1 :: rest)).2.wrbusy = false) ∧
    (∀ (priv : MmcsdState) (present : Bool) (r1 : Nat)
        (rest : List (Except Int Nat)),
      IS_EMPTY priv = false → present = true → priv.wrbusy = true →
      r1 &&& MMCSD_R1_ERRORMASK = 0 →
      (IS_STATE r1 MMCSD_R1_STATE_PRG = true ∨ IS_STATE r1 MMCSD_R1_STATE_RCV = true) →
      mmcsd_transferready priv present (.ok r1 :: rest) =
        mmcsd_transferready priv present rest) ∧
    (∀ (priv : MmcsdState) (present : Bool) (r1 : Nat)
        (rest : List (Except Int Nat)),
      IS_EMPTY priv = false → present = true → priv.wrbusy = true →
      r1 &&& MMCSD_R1_ERRORMASK = 0 →
      IS_STATE r1 MMCSD_R1_STATE_TRAN = false →
      IS_STATE r1 MMCSD_R1_STATE_PRG = false →
      IS_STATE r1 MMCSD_R1_STATE_RCV = false →
      (mmcsd_transferready priv present (.ok r1 :: rest)).1 = -EINVAL) ∧
    (∀ (priv : MmcsdState) (present : Bool),
      IS_EMPTY priv = false → present = true → priv.wrbusy = true →
      (mmcsd_transferready priv present []).1 = -ETIMEDOUT) := by
  refine ⟨?_, ?_, ?_, ?_, ?_, ?_⟩
  · intro priv present polls h
    unfold mmcsd_transferready
    rcases h with h | h <;> simp [h]
  · intro priv present polls he hp hw
    unfold mmcsd_transferready
    simp [he, hp, hw]
  · intro priv present r1 rest he hp hw herr hst
    unfold mmcsd_transferready transferready_loop mmcsd_get_r1
    simp [he, hp, hw, herr, hst, OK, EIOcode]
  · intro priv present r1 rest he hp hw herr hst
    unfold mmcsd_transferready
    simp only [he, hp, hw]
    rw [transferready_loop_skip priv r1 rest herr hst]
  · intro priv present r1 rest he hp hw herr ht hprg hrcv
    unfold mmcsd_transferready transferready_loop mmcsd_get_r1
    simp [he, hp, hw, herr, ht, hprg, hrcv, OK, EIOcode]
  · intro priv present he hp hw
    unfold mmcsd_transferready transferready_loop
    simp [he, hp, hw]

/-- Witness for C4: each branch of the contract at concrete inputs
(absent slot; idle slot; TRAN, PRG, STBY poll results; exhausted polls). -/
theorem C4_witness :
    (mmcsd_transferready sdv2BlockState false []).1 = -ENODEV ∧
    mmcsd_transferready sdv2BlockState true [] = (OK, sdv2BlockState) ∧
    (mmcsd_transferready wrbusySdState true [.ok 0x800]).1 = OK ∧
    mmcsd_transferready wrbusySdState true [.ok 0xe00, .ok 0x800] =
      mmcsd_transferready wrbusySdState true [.ok 0x800] ∧
    (mmcsd_transferready wrbusySdState true [.ok 0x600]).1 = -EINVAL ∧
    (mmcsd_transferready wrbusySdState true []).1 = -ETIMEDOUT :=
  ⟨C4_theorem.1 sdv2BlockState false [] (Or.inr rfl),
   C4_theorem.2.1 sdv2BlockState true [] (by decide) rfl rfl,
   (C4_theorem.2.2.1 wrbusySdState true 0x800 [] (by decide) rfl rfl
     (by decide) (by decide)).1,
   C4_theorem.2.2.2.1 wrbusySdState true 0xe00 [.ok 0x800] (by decide) rfl rfl
     (by decide) (Or.inl (by decide)),
   C4_theorem.2.2.2.2.1 wrbusySdState true 0x600 [] (by decide) rfl rfl
     (by decide) (by decide) (by decide) (by decide),
   C4_theorem.2.2.2.2.2 wrbusySdState true (by decide) rfl rfl⟩

/-! ## C1 -/

/-- C1: the CMD56 read path returns OK even when the transfer-readiness
check has failed (card absent, `-ENODEV`): the `__exit` tail of
`mmcsd_general_cmd_read` is `return OK;`, discarding `ret`.  This
contradicts the claimed (and intended) propagation of the actual result. -/
theorem C1_theorem :
    (mmcsd_transferready sdv2BlockState false []).1 = -ENODEV ∧
    (mmcsd_general_cmd_read sdv2BlockState 0 absentOracle).ret = OK ∧
    (mmcsd_general_cmd_read sdv2BlockState 0 absentOracle).trace = [] := by
  decide

/-! ## C5 -/

/-- C5 as stated is arithmetically inconsistent: for `csize = 0x1DB7` the
decoder yields `nblocks = (0x1DB7 + 1) << 10 = 7790592`, not 31490048. -/
theorem C5_counterexample :
    (mmcsd_decode_csd sdv2BlockState 0 0 0x1DB70000 0).nblocks0 = 7790592 ∧
    (mmcsd_decode_csd sdv2BlockState 0 0 0x1DB70000 0).nblocks0 ≠ 31490048 := by
  decide

/-- C5 (amended): block-addressed SD CSD decoding computes
`csize = ((csd[1] & 0x3f) << 16) | (csd[2] >> 16)` and
`nblocks = ((csize + 1) << 10) mod 2^32` with `blocksize = 512` — the
shift is evaluated in `uint32_t`, so the legal maximal `csize = 0x3fffff`
(a 2 TB SDXC) wraps `nblocks` to 0; decoding a CSD v2 with
`csize = 0x1DB7` yields `nblocks = 7790592`, `blocksize = 512`, and a
capacity of 3804 MiB. -/
theorem C5_theorem :
    (∀ (priv : MmcsdState) (csd0 csd1 csd2 csd3 : Nat),
      IS_BLOCK priv.cardType = true → IS_MMC priv.cardType = false →
      (mmcsd_decode_csd priv csd0 csd1 csd2 csd3).blocksize = 512 ∧
      (mmcsd_decode_csd priv csd0 csd1 csd2 csd3).blockshift = 9 ∧
      (mmcsd_decode_csd priv csd0 csd1 csd2 csd3).nblocks0 =
        u32 (((((csd1 &&& 0x3f) <<< 16) ||| (csd2 >>> 16)) + 1) <<< 10)) ∧
    ((mmcsd_decode_csd sdv2BlockState 0 0 0x1DB70000 0).nblocks0 = 7790592 ∧
     (mmcsd_decode_csd sdv2BlockState 0 0 0x1DB70000 0).blocksize = 512 ∧
     MMCSD_CAPACITY (mmcsd_decode_csd sdv2BlockState 0 0 0x1DB70000 0).nblocks0
       (mmcsd_decode_csd sdv2BlockState 0 0 0x1DB70000 0).blockshift / 1024 =
       3804) ∧
    ((mmcsd_decode_csd sdv2BlockState 0 0x3f 0xffff0000 0).nblocks0 = 0) := by
  refine ⟨?_, by decide, by decide⟩
  intro priv csd0 csd1 csd2 csd3 hb hm
  unfold mmcsd_decode_csd
  simp [hb, hm]

/-- Witness for C5's general part at the concrete block-addressed SD slot. -/
theorem C5_witness :
    IS_BLOCK sdv2BlockState.cardType = true ∧
    IS_MMC sdv2BlockState.cardType = false ∧
    (mmcsd_decode_csd sdv2BlockState 0 0 0x1DB70000 0).blockshift = 9 :=
  ⟨by decide, by decide,
   (C5_theorem.1 sdv2BlockState 0 0 0x1DB70000 0 (by decide) (by decide)).2.1⟩

/-! ## C6 -/

/-- C6 as stated fails for a CSD whose READ_BL_LEN is below 9: the decoder
only rescales native block sizes larger than 512, so READ_BL_LEN = 8 leaves
`blocksize = 256`, `blockshift = 8`. -/
theorem C6_counterexample :
    (mmcsd_decode_csd sdv1ByteState 0 0x80000 0 0).blocksize = 256 ∧
    (mmcsd_decode_csd sdv1ByteState 0 0x80000 0 0).blocksize ≠ 512 ∧
    (mmcsd_decode_csd sdv1ByteState 0 0x80000 0 0).blockshift = 8 := by
  decide

/-- After `1 <<< r` with `9 ≤ r`, shifting the count left by `r - 9`
multiplies the 512-byte capacity back to the native one. -/
theorem rescale_capacity (base r : Nat) (hr : 9 ≤ r) :
    (base <<< (r - 9)) * 512 = base * (1 <<< r) := by
  simp only [Nat.shiftLeft_eq, Nat.one_shiftLeft, one_mul]
  have h : 2 ^ (r - 9) * 2 ^ 9 = 2 ^ r := by
    rw [← pow_add]
    congr 1
    omega
  calc base * 2 ^ (r - 9) * 512 = base * (2 ^ (r - 9) * 2 ^ 9) := by ring_nf
    _ = base * 2 ^ r := by rw [h]

/-- `1 <<< r > 512` exactly when `r > 9`. -/
theorem one_shiftLeft_gt_512 (r : Nat) : 512 < 1 <<< r ↔ 9 < r := by
  rw [Nat.one_shiftLeft]
  have h512 : (512 : Nat) = 2 ^ 9 := by norm_num
  rw [h512]
  exact Nat.pow_lt_pow_iff_right (by norm_num)

/-- The 12-bit C_SIZE field of a byte-addressed (or block-addressed MMC)
CSD is below 4096. -/
theorem csize12_lt (csd1 csd2 : Nat) :
    ((csd1 &&& 0x3ff) <<< 2) ||| ((csd2 >>> 30) &&& 3) < 4096 := by
  have h1 : (csd1 &&& 0x3ff) <<< 2 < 2 ^ 12 := by
    rw [Nat.shiftLeft_eq]
    have h := Nat.and_le_right (n := csd1) (m := 0x3ff)
    have h2 : (2 : Nat) ^ 2 = 4 := by norm_num
    rw [h2]
    omega
  have h3 : (csd2 >>> 30) &&& 3 < 2 ^ 12 :=
    lt_of_le_of_lt Nat.and_le_right (by norm_num)
  exact Nat.or_lt_two_pow h1 h3

/-- The native block count `(csize+1) * 2^(csizemult+2)` of a 12-bit
C_SIZE stays far below `2^32`: the uint32 reduction is the identity. -/
theorem nowrap_mul (csize m : Nat) (hc : csize < 4096) (hm : m < 8) :
    u32 ((csize + 1) * (1 <<< (m + 2))) = (csize + 1) * (1 <<< (m + 2)) := by
  have hs : (1 : Nat) <<< (m + 2) ≤ 512 := by
    rw [Nat.one_shiftLeft]
    calc (2 : Nat) ^ (m + 2) ≤ 2 ^ 9 := Nat.pow_le_pow_right (by norm_num) (by omega)
      _ = 512 := by norm_num
  have hb : (csize + 1) * (1 <<< (m + 2)) ≤ 4096 * 512 :=
    Nat.mul_le_mul (by omega) hs
  exact Nat.mod_eq_of_lt (by omega)

/-- The rescaled block count also stays below `2^32` for any READ_BL_LEN
value (a 4-bit field): the uint32 reduction is the identity. -/
theorem nowrap_shift (csize m r : Nat) (hc : csize < 4096) (hm : m < 8)
    (hr : r < 16) :
    u32 (((csize + 1) * (1 <<< (m + 2))) <<< (r - 9)) =
      ((csize + 1) * (1 <<< (m + 2))) <<< (r - 9) := by
  have hs : (1 : Nat) <<< (m + 2) ≤ 512 := by
    rw [Nat.one_shiftLeft]
    calc (2 : Nat) ^ (m + 2) ≤ 2 ^ 9 := Nat.pow_le_pow_right (by norm_num) (by omega)
      _ = 512 := by norm_num
  have hb : (csize + 1) * (1 <<< (m + 2)) ≤ 4096 * 512 :=
    Nat.mul_le_mul (by omega) hs
  have hp : (2 : Nat) ^ (r - 9) ≤ 2 ^ 6 := Nat.pow_le_pow_right (by norm_num) (by omega)
  have h6 : (2 : Nat) ^ 6 = 64 := by norm_num
  rw [Nat.shiftLeft_eq]
  refine Nat.mod_eq_of_lt ?_
  calc (csize + 1) * (1 <<< (m + 2)) * 2 ^ (r - 9)
      ≤ 4096 * 512 * 64 := by
        refine Nat.mul_le_mul hb ?_
        rw [← h6] at *
        exact hp
    _ < 4294967296 := by norm_num

/-- C6 (amended): whenever the CSD's READ_BL_LEN is at least 9 (native
block at least 512 bytes — as the source itself assumes), CSD decoding
leaves `blocksize = 512` and `blockshift = 9`; for READ_BL_LEN below 9 the
decoder keeps the smaller native size (see the counterexample).  When the
native block is larger than 512 the block count is rescaled so capacity is
preserved: in the byte-addressed branch, and in the block-addressed MMC
branch when `csize` is below the >2 GB threshold,
`nblocks * 512 = (csize+1) * 2^(csizemult+2) * 2^READ_BL_LEN` (the 12-bit
C_SIZE keeps these products below `2^32`, so no uint32 wrap occurs in the
asserted branches). -/
theorem C6_theorem (priv : MmcsdState) (csd0 csd1 csd2 csd3 : Nat)
    (hr : 9 ≤ (csd1 >>> 16) &&& 0xf) :
    ((mmcsd_decode_csd priv csd0 csd1 csd2 csd3).blocksize = 512 ∧
     (mmcsd_decode_csd priv csd0 csd1 csd2 csd3).blockshift = 9) ∧
    (IS_BLOCK priv.cardType = false →
      (mmcsd_decode_csd priv csd0 csd1 csd2 csd3).nblocks0 * 512 =
        ((((csd1 &&& 0x3ff) <<< 2) ||| ((csd2 >>> 30) &&& 3)) + 1) *
          (1 <<< (((csd2 >>> 15) &&& 7) + 2)) * (1 <<< ((csd1 >>> 16) &&& 0xf))) ∧
    (IS_BLOCK priv.cardType = true → IS_MMC priv.cardType = true →
      (((csd1 &&& 0x3ff) <<< 2) ||| ((csd2 >>> 30) &&& 3)) ≠
        MMCSD_CSD_CSIZE_THRESHOLD →
      (mmcsd_decode_csd priv csd0 csd1 csd2 csd3).nblocks0 * 512 =
        ((((csd1 &&& 0x3ff) <<< 2) ||| ((csd2 >>> 30) &&& 3)) + 1) *
          (1 <<< (((csd2 >>> 15) &&& 7) + 2)) * (1 <<< ((csd1 >>> 16) &&& 0xf))) := by
  set r := (csd1 >>> 16) &&& 0xf with hrdef
  have hr16 : r < 16 := lt_of_le_of_lt Nat.and_le_right (by norm_num)
  have hcs : ((csd1 &&& 0x3ff) <<< 2) ||| ((csd2 >>> 30) &&& 3) < 4096 :=
    csize12_lt csd1 csd2
  have hmult : (csd2 >>> 15) &&& 7 < 8 :=
    lt_of_le_of_lt Nat.and_le_right (by norm_num)
  have hnm := nowrap_mul (((csd1 &&& 0x3ff) <<< 2) ||| ((csd2 >>> 30) &&& 3))
    ((csd2 >>> 15) &&& 7) hcs hmult
  have hns := nowrap_shift (((csd1 &&& 0x3ff) <<< 2) ||| ((csd2 >>> 30) &&& 3))
    ((csd2 >>> 15) &&& 7) r hcs hmult hr16
  by_cases hb : IS_BLOCK priv.cardType
  · by_cases hm : IS_MMC priv.cardType
    · -- block-addressed MMC
      by_cases hgt : 9 < r
      · have h512 : 512 < 1 <<< r := (one_shiftLeft_gt_512 r).mpr hgt
        by_cases hth : (((csd1 &&& 0x3ff) <<< 2) ||| ((csd2 >>> 30) &&& 3)) =
            MMCSD_CSD_CSIZE_THRESHOLD
        · refine ⟨?_, ?_, ?_⟩
          · unfold mmcsd_decode_csd
            simp [hb, hm, hth, ← hrdef, h512]
          · intro h
            rw [h] at hb
            exact absurd hb (by simp)
          · intro _ _ h
            exact absurd hth h
        · refine ⟨?_, ?_, ?_⟩
          · unfold mmcsd_decode_csd
            simp [hb, hm, hth, ← hrdef, h512]
          · intro h
            rw [h] at hb
            exact absurd hb (by simp)
          · intro _ _ _
            unfold mmcsd_decode_csd
            simp only [← hrdef]
            simp [hb, hm, hth, h512, hnm, hns]
            exact rescale_capacity _ r (le_of_lt hgt)
      · have hr9 : r = 9 := by omega
        have h512 : ¬ 512 < 1 <<< r := by
          rw [hr9]
          decide
        by_cases hth : (((csd1 &&& 0x3ff) <<< 2) ||| ((csd2 >>> 30) &&& 3)) =
            MMCSD_CSD_CSIZE_THRESHOLD
        · refine ⟨?_, ?_, ?_⟩
          · unfold mmcsd_decode_csd
            simp [hb, hm, hth, ← hrdef, h512, hr9]
          · intro h
            rw [h] at hb
            exact absurd hb (by simp)
          · intro _ _ h
            exact absurd hth h
        · refine ⟨?_, ?_, ?_⟩
          · unfold mmcsd_decode_csd
            simp [hb, hm, hth, ← hrdef, h512, hr9]
          · intro h
            rw [h] at hb
            exact absurd hb (by simp)
          · intro _ _ _
            unfold mmcsd_decode_csd
            simp only [← hrdef]
            simp [hb, hm, hth, h512, hr9, hnm, hns]
    · -- block-addressed SD: 512/9 unconditionally
      refine ⟨?_, ?_, ?_⟩
      · unfold mmcsd_decode_csd
        simp [hb, hm]
      · intro h
        rw [h] at hb
        exact absurd hb (by simp)
      · intro _ hm2 _
        exact absurd hm2 (by simp [hm])
  · -- byte-addressed
    by_cases hgt : 9 < r
    · have h512 : 512 < 1 <<< r := (one_shiftLeft_gt_512 r).mpr hgt
      refine ⟨?_, ?_, ?_⟩
      · unfold mmcsd_decode_csd
        simp [hb, ← hrdef, h512]
      · intro _
        unfold mmcsd_decode_csd
        simp only [← hrdef]
        simp [hb, h512, hnm, hns]
        exact rescale_capacity _ r (le_of_lt hgt)
      · intro h
        rw [h] at hb
        exact absurd hb (by simp)
    · have hr9 : r = 9 := by omega
      have h512 : ¬ 512 < 1 <<< r := by
        rw [hr9]
        decide
      refine ⟨?_, ?_, ?_⟩
      · unfold mmcsd_decode_csd
        simp [hb, ← hrdef, h512, hr9]
      · intro _
        unfold mmcsd_decode_csd
        simp only [← hrdef]
        simp [hb, h512, hr9, hnm, hns]
      · intro h
        rw [h] at hb
        exact absurd hb (by simp)

/-- Witness for C6 at a byte-addressed card with READ_BL_LEN = 10:
decoding normalizes to 512/9. -/
theorem C6_witness :
    9 ≤ (0xa0000 >>> 16) &&& 0xf ∧
    (mmcsd_decode_csd sdv1ByteState 0 0xa0000 0 0).blocksize = 512 ∧
    (mmcsd_decode_csd sdv1ByteState 0 0xa0000 0 0).blockshift = 9 :=
  ⟨by decide, (C6_theorem sdv1ByteState 0 0xa0000 0 0 (by decide)).1.1,
   (C6_theorem sdv1ByteState 0 0xa0000 0 0 (by decide)).1.2⟩

/-! ## C3 -/

/-- Any CMD17 issued by `mmcsd_readsingle` carries the converted address. -/
theorem readsingle_cmd17_arg (priv : MmcsdState) (pn start : Nat)
    (o : TransferOracle) (a : Nat)
    (hmem : SdCmd.cmd17 a ∈ (mmcsd_readsingle priv pn start o).trace) :
    a = if IS_BLOCK priv.cardType then start else start <<< priv.blockshift := by
  unfold mmcsd_readsingle at hmem
  by_cases hl : priv.locked = true
  · rw [if_pos hl] at hmem
    simp at hmem
  · rw [if_neg hl] at hmem
    rcases hps : partSwitchStep priv pn o with res | qtr
    · rw [hps] at hmem
      rcases partSwitchStep_inl priv pn o res hps with ht | ht <;>
        simp [ht] at hmem
    · obtain ⟨q, tr⟩ := qtr
      rw [hps] at hmem
      obtain ⟨htr, l, w, hq⟩ := partSwitchStep_inr priv pn o q tr hps
      set t := mmcsd_transferready q o.present o.readyPolls with hts
      have hpres := mmcsd_transferready_pres q o.present o.readyPolls
      have hc : t.2.cardType = priv.cardType := by
        rw [← hts] at hpres
        rw [hpres.1, hq]
      have hsh : t.2.blockshift = priv.blockshift := by
        rw [← hts] at hpres
        rw [hpres.2.2.2.1, hq]
      dsimp only at hmem
      split at hmem
      · rcases htr with ht | ht <;> simp [ht] at hmem
      · split at hmem
        · rcases htr with ht | ht <;>
            rcases mmcsd_setblocklen_trace t.2 t.2.blocksize o.blocklenR1 with
              hbt | hbt <;>
            simp [ht, hbt] at hmem
        · split at hmem
          case _ =>
            rcases htr with ht | ht <;>
              rcases mmcsd_setblocklen_trace t.2 t.2.blocksize o.blocklenR1 with
                hbt | hbt <;>
              simp [ht, hbt] at hmem <;>
              rw [hmem, hc, hsh]
          case _ =>
            split at hmem <;>
              rcases htr with ht | ht <;>
                rcases mmcsd_setblocklen_trace t.2 t.2.blocksize o.blocklenR1 with
                  hbt | hbt <;>
                simp [ht, hbt] at hmem <;>
                rw [hmem, hc, hsh]

/-- Any CMD18 issued by `mmcsd_readmultiple` carries the converted address. -/
theorem readmultiple_cmd18_arg (priv : MmcsdState) (pn start n : Nat)
    (o : TransferOracle) (a : Nat)
    (hmem : SdCmd.cmd18 a ∈ (mmcsd_readmultiple priv pn start n o).trace) :
    a = if IS_BLOCK priv.cardType then start else start <<< priv.blockshift := by
  unfold mmcsd_readmultiple at hmem
  by_cases hl : priv.locked = true
  · rw [if_pos hl] at hmem
    simp at hmem
  · rw [if_neg hl] at hmem
    rcases hps : partSwitchStep priv pn o with res | qtr
    · rw [hps] at hmem
      rcases partSwitchStep_inl priv pn o res hps with ht | ht <;>
        simp [ht] at hmem
    · obtain ⟨q, tr⟩ := qtr
      rw [hps] at hmem
      obtain ⟨htr, l, w, hq⟩ := partSwitchStep_inr priv pn o q tr hps
      set t := mmcsd_transferready q o.present o.readyPolls with hts
      have hpres := mmcsd_transferready_pres q o.present o.readyPolls
      have hc : t.2.cardType = priv.cardType := by
        rw [← hts] at hpres
        rw [hpres.1, hq]
      have hsh : t.2.blockshift = priv.blockshift := by
        rw [← hts] at hpres
        rw [hpres.2.2.2.1, hq]
      have hst12 : ∀ (ps : MmcsdState),
          (mmcsd_stoptransmission ps o.stopR1).trace = [SdCmd.cmd12] :=
        fun ps => (mmcsd_stoptransmission_view ps o.stopR1).2.1
      dsimp only at hmem
      split at hmem
      · rcases htr with ht | ht <;> simp [ht] at hmem
      · split at hmem
        · rcases htr with ht | ht <;>
            rcases mmcsd_setblocklen_trace t.2 t.2.blocksize o.blocklenR1 with
              hbt | hbt <;>
            simp [ht, hbt] at hmem
        · split at hmem
          · rename_i res heq
            obtain ⟨htc, -, -, -⟩ := blockcountStep_inl _ _ _ _ _ _ heq
            rcases htr with ht | ht <;>
              rcases mmcsd_setblocklen_trace t.2 t.2.blocksize o.blocklenR1 with
                hbt | hbt <;>
              simp [htc, ht, hbt] at hmem
          · rename_i p3 tr3 heq
            obtain ⟨htc, -⟩ := blockcountStep_inr _ _ _ _ _ _ _ heq
            split at hmem
            · rcases htc with hc3 | hc3 <;>
                rcases htr with ht | ht <;>
                rcases mmcsd_setblocklen_trace t.2 t.2.blocksize o.blocklenR1 with
                  hbt | hbt <;>
                simp [hc3, ht, hbt] at hmem <;>
                rw [hmem, hc, hsh]
            · split at hmem
              · rcases htc with hc3 | hc3 <;>
                  rcases htr with ht | ht <;>
                  rcases mmcsd_setblocklen_trace t.2 t.2.blocksize o.blocklenR1 with
                    hbt | hbt <;>
                  simp [hc3, ht, hbt] at hmem <;>
                  rw [hmem, hc, hsh]
              · split at hmem <;>
                  rcases htc with hc3 | hc3 <;>
                  rcases htr with ht | ht <;>
                  rcases mmcsd_setblocklen_trace t.2 t.2.blocksize o.blocklenR1 with
                    hbt | hbt <;>
                  simp [hc3, ht, hbt, hst12] at hmem <;>
                  rw [hmem, hc, hsh]

/-- Any CMD24 issued by `mmcsd_writesingle` carries the converted address. -/
theorem writesingle_cmd24_arg (priv : MmcsdState) (pn start : Nat)
    (o : TransferOracle) (a : Nat)
    (hmem : SdCmd.cmd24 a ∈ (mmcsd_writesingle priv pn start o).trace) :
    a = if IS_BLOCK priv.cardType then start else start <<< priv.blockshift := by
  unfold mmcsd_writesingle at hmem
  by_cases hl : mmcsd_wrprotected priv o.hostWrprotected = true
  · rw [if_pos hl] at hmem
    simp at hmem
  · rw [if_neg hl] at hmem
    rcases hps : partSwitchStep priv pn o with res | qtr
    · rw [hps] at hmem
      rcases partSwitchStep_inl priv pn o res hps with ht | ht <;>
        simp [ht] at hmem
    · obtain ⟨q, tr⟩ := qtr
      rw [hps] at hmem
      obtain ⟨htr, l, w, hq⟩ := partSwitchStep_inr priv pn o q tr hps
      set t := mmcsd_transferready q o.present o.readyPolls with hts
      have hpres := mmcsd_transferready_pres q o.present o.readyPolls
      have hc : t.2.cardType = priv.cardType := by
        rw [← hts] at hpres
        rw [hpres.1, hq]
      have hsh : t.2.blockshift = priv.blockshift := by
        rw [← hts] at hpres
        rw [hpres.2.2.2.1, hq]
      dsimp only at hmem
      split at hmem
      · rcases htr with ht | ht <;> simp [ht] at hmem
      · split at hmem
        · rcases htr with ht | ht <;>
            rcases mmcsd_setblocklen_trace t.2 t.2.blocksize o.blocklenR1 with
              hbt | hbt <;>
            simp [ht, hbt] at hmem
        · split at hmem
          · rename_i res heq
            obtain ⟨htc, -, -, -⟩ := dataCmdStep_inl _ _ _ _ _ _ heq
            rcases htr with ht | ht <;>
              rcases mmcsd_setblocklen_trace t.2 t.2.blocksize o.blocklenR1 with
                hbt | hbt <;>
              simp [htc, ht, hbt] at hmem <;>
              rw [hmem, hc, hsh]
          · rename_i p3 tr3 heq
            obtain ⟨htc, -⟩ := dataCmdStep_inr _ _ _ _ _ _ _ heq
            split at hmem
            · rename_i res2 heq2
              obtain ⟨htc2, -, -, -⟩ := dataCmdStep_inl _ _ _ _ _ _ heq2
              rcases htc with hc3 | hc3 <;>
                rcases htr with ht | ht <;>
                rcases mmcsd_setblocklen_trace t.2 t.2.blocksize o.blocklenR1 with
                  hbt | hbt <;>
                simp [htc2, hc3, ht, hbt] at hmem <;>
                rw [hmem, hc, hsh]
            · rename_i p4 tr4 heq2
              obtain ⟨htc2, -⟩ := dataCmdStep_inr _ _ _ _ _ _ _ heq2
              split at hmem <;>
                rcases htc2 with hc4 | hc4 <;>
                rcases htc with hc3 | hc3 <;>
                rcases htr with ht | ht <;>
                rcases mmcsd_setblocklen_trace t.2 t.2.blocksize o.blocklenR1 with
                  hbt | hbt <;>
                simp [hc4, hc3, ht, hbt] at hmem <;>
                rw [hmem, hc, hsh]

/-- Any CMD25 issued by `mmcsd_writemultiple` carries the converted address. -/
theorem writemultiple_cmd25_arg (priv : MmcsdState) (pn start n : Nat)
    (o : TransferOracle) (a : Nat)
    (hmem : SdCmd.cmd25 a ∈ (mmcsd_writemultiple priv pn start n o).trace) :
    a = if IS_BLOCK priv.cardType then start else start <<< priv.blockshift := by
  unfold mmcsd_writemultiple at hmem
  by_cases hl : mmcsd_wrprotected priv o.hostWrprotected = true
  · rw [if_pos hl] at hmem
    simp at hmem
  · rw [if_neg hl] at hmem
    rcases hps : partSwitchStep priv pn o with res | qtr
    · rw [hps] at hmem
      rcases partSwitchStep_inl priv pn o res hps with ht | ht <;>
        simp [ht] at hmem
    · obtain ⟨q, tr⟩ := qtr
      rw [hps] at hmem
      obtain ⟨htr, l, w, hq⟩ := partSwitchStep_inr priv pn o q tr hps
      set t := mmcsd_transferready q o.present o.readyPolls with hts
      have hpres := mmcsd_transferready_pres q o.present o.readyPolls
      have hc : t.2.cardType = priv.cardType := by
        rw [← hts] at hpres
        rw [hpres.1, hq]
      have hsh : t.2.blockshift = priv.blockshift := by
        rw [← hts] at hpres
        rw [hpres.2.2.2.1, hq]
      have hst12 : ∀ (ps : MmcsdState),
          (mmcsd_stoptransmission ps o.stopR1).trace = [SdCmd.cmd12] :=
        fun ps => (mmcsd_stoptransmission_view ps o.stopR1).2.1
      dsimp only at hmem
      split at hmem
      · rcases htr with ht | ht <;> simp [ht] at hmem
      · split at hmem
        · rcases htr with ht | ht <;>
            rcases mmcsd_setblocklen_trace t.2 t.2.blocksize o.blocklenR1 with
              hbt | hbt <;>
            simp [ht, hbt] at hmem
        · split at hmem
          · rename_i res heq
            obtain ⟨hta, -⟩ := sdAcmd23Step_inl _ _ _ _ _ _ _ heq
            rcases hta with ha | ha <;>
              rcases htr with ht | ht <;>
              rcases mmcsd_setblocklen_trace t.2 t.2.blocksize o.blocklenR1 with
                hbt | hbt <;>
              simp [ha, ht, hbt] at hmem
          · rename_i p3 tr3 heq
            obtain ⟨hta, -⟩ := sdAcmd23Step_inr _ _ _ _ _ _ _ _ heq
            split at hmem
            · rename_i res2 heq2
              obtain ⟨htb, -, -, -⟩ := blockcountStep_inl _ _ _ _ _ _ heq2
              rcases hta with ha | ha <;>
                rcases htr with ht | ht <;>
                rcases mmcsd_setblocklen_trace t.2 t.2.blocksize o.blocklenR1 with
                  hbt | hbt <;>
                simp [htb, ha, ht, hbt] at hmem
            · rename_i p4 tr4 heq2
              obtain ⟨htb, -⟩ := blockcountStep_inr _ _ _ _ _ _ _ heq2
              split at hmem
              · rename_i res3 heq3
                obtain ⟨htd, -, -, -⟩ := dataCmdStep_inl _ _ _ _ _ _ heq3
                rcases htb with hb | hb <;>
                  rcases hta with ha | ha <;>
                  rcases htr with ht | ht <;>
                  rcases mmcsd_setblocklen_trace t.2 t.2.blocksize o.blocklenR1 with
                    hbt | hbt <;>
                  simp [htd, hb, ha, ht, hbt] at hmem <;>
                  rw [hmem, hc, hsh]
              · rename_i p5 tr5 heq3
                obtain ⟨htd, -⟩ := dataCmdStep_inr _ _ _ _ _ _ _ heq3
                split at hmem
                · rename_i res4 heq4
                  obtain ⟨hte, -, -, -⟩ := dataCmdStep_inl _ _ _ _ _ _ heq4
                  rcases htd with hd | hd <;>
                    rcases htb with hb | hb <;>
                    rcases hta with ha | ha <;>
                    rcases htr with ht | ht <;>
                    rcases mmcsd_setblocklen_trace t.2 t.2.blocksize o.blocklenR1 with
                      hbt | hbt <;>
                    simp [hte, hd, hb, ha, ht, hbt] at hmem <;>
                    rw [hmem, hc, hsh]
                · rename_i p6 tr6 heq4
                  obtain ⟨hte, -⟩ := dataCmdStep_inr _ _ _ _ _ _ _ heq4
                  split at hmem <;>
                    [(split at hmem
                      · rcases hte with he | he <;>
                          rcases htd with hd | hd <;>
                          rcases htb with hb | hb <;>
                          rcases hta with ha | ha <;>
                          rcases htr with ht | ht <;>
                          rcases mmcsd_setblocklen_trace t.2 t.2.blocksize
                            o.blocklenR1 with hbt | hbt <;>
                          simp [he, hd, hb, ha, ht, hbt, hst12] at hmem <;>
                          rw [hmem, hc, hsh]
                      · split at hmem <;>
                          rcases hte with he | he <;>
                          rcases htd with hd | hd <;>
                          rcases htb with hb | hb <;>
                          rcases hta with ha | ha <;>
                          rcases htr with ht | ht <;>
                          rcases mmcsd_setblocklen_trace t.2 t.2.blocksize
                            o.blocklenR1 with hbt | hbt <;>
                          simp [he, hd, hb, ha, ht, hbt, hst12] at hmem <;>
                          rw [hmem, hc, hsh]);
                     (split at hmem <;>
                        rcases hte with he | he <;>
                        rcases htd with hd | hd <;>
                        rcases htb with hb | hb <;>
                        rcases hta with ha | ha <;>
                        rcases htr with ht | ht <;>
                        rcases mmcsd_setblocklen_trace t.2 t.2.blocksize
                          o.blocklenR1 with hbt | hbt <;>
                        simp [he, hd, hb, ha, ht, hbt, hst12] at hmem <;>
                        rw [hmem, hc, hsh])]

/-- C3: in every single- or multi-block read or write that reaches the data
command, the address argument of CMD17/CMD18/CMD24/CMD25 is `startblock`
shifted left by `blockshift` for a byte-addressed card and `startblock`
unchanged for a block-addressed card. -/
theorem C3_theorem :
    (∀ (priv : MmcsdState) (pn start : Nat) (o : TransferOracle) (a : Nat),
      SdCmd.cmd17 a ∈ (mmcsd_readsingle priv pn start o).trace →
      a = if IS_BLOCK priv.cardType then start else start <<< priv.blockshift) ∧
    (∀ (priv : MmcsdState) (pn start n : Nat) (o : TransferOracle) (a : Nat),
      SdCmd.cmd18 a ∈ (mmcsd_readmultiple priv pn start n o).trace →
      a = if IS_BLOCK priv.cardType then start else start <<< priv.blockshift) ∧
    (∀ (priv : MmcsdState) (pn start : Nat) (o : TransferOracle) (a : Nat),
      SdCmd.cmd24 a ∈ (mmcsd_writesingle priv pn start o).trace →
      a = if IS_BLOCK priv.cardType then start else start <<< priv.blockshift) ∧
    (∀ (priv : MmcsdState) (pn start n : Nat) (o : TransferOracle) (a : Nat),
      SdCmd.cmd25 a ∈ (mmcsd_writemultiple priv pn start n o).trace →
      a = if IS_BLOCK priv.cardType then start else start <<< priv.blockshift) :=
  ⟨fun priv pn start o a h => readsingle_cmd17_arg priv pn start o a h,
   fun priv pn start n o a h => readmultiple_cmd18_arg priv pn start n o a h,
   fun priv pn start o a h => writesingle_cmd24_arg priv pn start o a h,
   fun priv pn start n o a h => writemultiple_cmd25_arg priv pn start n o a h⟩

/-! ## C2 -/

/-- C2: on an SD card without CMD23 support, a multi-block write whose
data-phase event wait fails still issues CMD12 (STOP_TRANSMISSION) and
returns the original event-wait error — whatever the CMD12 outcome
(`o.stopR1` is unconstrained). -/
theorem C2_theorem (priv q : MmcsdState) (pn start n : Nat)
    (o : TransferOracle) (tr1 : List SdCmd)
    (hsd : IS_SD priv.cardType = true) (hmmc : IS_MMC priv.cardType = false)
    (h23 : priv.cmd23support = false)
    (hwp : mmcsd_wrprotected priv o.hostWrprotected = false)
    (hps : partSwitchStep priv pn o = Sum.inr (q, tr1))
    (hready : (mmcsd_transferready q o.present o.readyPolls).1 = OK)
    (hbl : recvR1ret o.blocklenR1 = OK)
    (h55 : recvR1ret o.cmd55R1 = OK)
    (ha : recvR1ret o.acmd23R1 = OK)
    (hdata : recvR1ret o.dataR1 = OK)
    (hev : mmcsd_eventwait (SDIOWAIT_TIMEOUT ||| SDIOWAIT_ERROR) o.wkupevent ≠ OK) :
    (mmcsd_writemultiple priv pn start n o).ret =
      mmcsd_eventwait (SDIOWAIT_TIMEOUT ||| SDIOWAIT_ERROR) o.wkupevent ∧
    SdCmd.cmd12 ∈ (mmcsd_writemultiple priv pn start n o).trace := by
  obtain ⟨-, l, w, hq⟩ := partSwitchStep_inr priv pn o q tr1 hps
  have hpres := mmcsd_transferready_pres q o.present o.readyPolls
  have hc2 : (mmcsd_transferready q o.present o.readyPolls).2.cardType =
      priv.cardType := by
    rw [hpres.1, hq]
  have hs2 : (mmcsd_transferready q o.present o.readyPolls).2.cmd23support =
      priv.cmd23support := by
    rw [hpres.2.2.2.2.2.1, hq]
  have hcap2 : (mmcsd_transferready q o.present o.readyPolls).2.capsDmaBeforeWrite =
      priv.capsDmaBeforeWrite := by
    rw [hpres.2.2.2.2.2.2.2.1, hq]
  obtain ⟨l3, s3, hbl3⟩ := mmcsd_setblocklen_shape
    (mmcsd_transferready q o.present o.readyPolls).2
    (mmcsd_transferready q o.present o.readyPolls).2.blocksize o.blocklenR1
  have hblc : (mmcsd_setblocklen (mmcsd_transferready q o.present o.readyPolls).2
      (mmcsd_transferready q o.present o.readyPolls).2.blocksize
      o.blocklenR1).priv.cardType = priv.cardType := by
    rw [hbl3]
    exact hc2
  have hbls : (mmcsd_setblocklen (mmcsd_transferready q o.present o.readyPolls).2
      (mmcsd_transferready q o.present o.readyPolls).2.blocksize
      o.blocklenR1).priv.cmd23support = priv.cmd23support := by
    rw [hbl3]
    exact hs2
  have hblcap : (mmcsd_setblocklen (mmcsd_transferready q o.present o.readyPolls).2
      (mmcsd_transferready q o.present o.readyPolls).2.blocksize
      o.blocklenR1).priv.capsDmaBeforeWrite = priv.capsDmaBeforeWrite := by
    rw [hbl3]
    exact hcap2
  obtain ⟨l4, hp3⟩ := recv_r1_twice_shape
    (mmcsd_setblocklen (mmcsd_transferready q o.present o.readyPolls).2
      (mmcsd_transferready q o.present o.readyPolls).2.blocksize
      o.blocklenR1).priv o.cmd55R1 o.acmd23R1
  have hc3 : (mmcsd_recv_r1 (mmcsd_recv_r1
      (mmcsd_setblocklen (mmcsd_transferready q o.present o.readyPolls).2
        (mmcsd_transferready q o.present o.readyPolls).2.blocksize
        o.blocklenR1).priv o.cmd55R1).2 o.acmd23R1).2.cardType =
      priv.cardType := by
    rw [hp3]
    exact hblc
  have hs3 : (mmcsd_recv_r1 (mmcsd_recv_r1
      (mmcsd_setblocklen (mmcsd_transferready q o.present o.readyPolls).2
        (mmcsd_transferready q o.present o.readyPolls).2.blocksize
        o.blocklenR1).priv o.cmd55R1).2 o.acmd23R1).2.cmd23support =
      priv.cmd23support := by
    rw [hp3]
    exact hbls
  have hcap3 : (mmcsd_recv_r1 (mmcsd_recv_r1
      (mmcsd_setblocklen (mmcsd_transferready q o.present o.readyPolls).2
        (mmcsd_transferready q o.present o.readyPolls).2.blocksize
        o.blocklenR1).priv o.cmd55R1).2 o.acmd23R1).2.capsDmaBeforeWrite =
      priv.capsDmaBeforeWrite := by
    rw [hp3]
    exact hblcap
  unfold mmcsd_writemultiple
  rw [if_neg (by simp [hwp]), hps]
  dsimp only
  rw [if_neg (by simp [hready])]
  rw [if_neg (by simp [mmcsd_setblocklen_ret_ok _ _ _ hbl])]
  rw [show IS_SD (mmcsd_setblocklen (mmcsd_transferready q o.present o.readyPolls).2
        (mmcsd_transferready q o.present o.readyPolls).2.blocksize
        o.blocklenR1).priv.cardType = true by rw [hblc]; exact hsd]
  rw [sdAcmd23Step_ok _ n o.cmd55R1 o.acmd23R1 _ h55 ha]
  dsimp only
  rw [show (IS_MMC (mmcsd_recv_r1 (mmcsd_recv_r1
      (mmcsd_setblocklen (mmcsd_transferready q o.present o.readyPolls).2
        (mmcsd_transferready q o.present o.readyPolls).2.blocksize
        o.blocklenR1).priv o.cmd55R1).2 o.acmd23R1).2.cardType ||
      (IS_SD (mmcsd_recv_r1 (mmcsd_recv_r1
      (mmcsd_setblocklen (mmcsd_transferready q o.present o.readyPolls).2
        (mmcsd_transferready q o.present o.readyPolls).2.blocksize
        o.blocklenR1).priv o.cmd55R1).2 o.acmd23R1).2.cardType &&
       (mmcsd_recv_r1 (mmcsd_recv_r1
      (mmcsd_setblocklen (mmcsd_transferready q o.present o.readyPolls).2
        (mmcsd_transferready q o.present o.readyPolls).2.blocksize
        o.blocklenR1).priv o.cmd55R1).2 o.acmd23R1).2.cmd23support)) = false by
    rw [hc3, hs3]
    simp [hmmc, h23]]
  rw [blockcountStep_skip]
  dsimp only
  obtain ⟨l6, hp6⟩ := mmcsd_recv_r1_shape (mmcsd_recv_r1 (mmcsd_recv_r1
      (mmcsd_setblocklen (mmcsd_transferready q o.present o.readyPolls).2
        (mmcsd_transferready q o.present o.readyPolls).2.blocksize
        o.blocklenR1).priv o.cmd55R1).2 o.acmd23R1).2 o.dataR1
  have hc6 : (mmcsd_recv_r1 (mmcsd_recv_r1 (mmcsd_recv_r1
      (mmcsd_setblocklen (mmcsd_transferready q o.present o.readyPolls).2
        (mmcsd_transferready q o.present o.readyPolls).2.blocksize
        o.blocklenR1).priv o.cmd55R1).2 o.acmd23R1).2 o.dataR1).2.cardType =
      priv.cardType := by
    rw [hp6]
    exact hc3
  have hs6 : (mmcsd_recv_r1 (mmcsd_recv_r1 (mmcsd_recv_r1
      (mmcsd_setblocklen (mmcsd_transferready q o.present o.readyPolls).2
        (mmcsd_transferready q o.present o.readyPolls).2.blocksize
        o.blocklenR1).priv o.cmd55R1).2 o.acmd23R1).2 o.dataR1).2.cmd23support =
      priv.cmd23support := by
    rw [hp6]
    exact hs3
  by_cases hcapb : priv.capsDmaBeforeWrite = true
  · have hc3cap : (mmcsd_recv_r1 (mmcsd_recv_r1
      (mmcsd_setblocklen (mmcsd_transferready q o.present o.readyPolls).2
        (mmcsd_transferready q o.present o.readyPolls).2.blocksize
        o.blocklenR1).priv o.cmd55R1).2 o.acmd23R1).2.capsDmaBeforeWrite = true := by
      rw [hcap3]
      exact hcapb
    rw [hc3cap, Bool.not_true, dataCmdStep_skip]
    dsimp only
    rw [hc3cap]
    rw [dataCmdStep_ok _ _ o.dataR1 _ hdata]
    dsimp only
    rw [if_pos (show (IS_SD (mmcsd_recv_r1 (mmcsd_recv_r1 (mmcsd_recv_r1
      (mmcsd_setblocklen (mmcsd_transferready q o.present o.readyPolls).2
        (mmcsd_transferready q o.present o.readyPolls).2.blocksize
        o.blocklenR1).priv o.cmd55R1).2 o.acmd23R1).2 o.dataR1).2.cardType &&
      !(mmcsd_recv_r1 (mmcsd_recv_r1 (mmcsd_recv_r1
      (mmcsd_setblocklen (mmcsd_transferready q o.present o.readyPolls).2
        (mmcsd_transferready q o.present o.readyPolls).2.blocksize
        o.blocklenR1).priv o.cmd55R1).2 o.acmd23R1).2 o.dataR1).2.cmd23support) = true
      by rw [hc6, hs6]; simp [hsd, h23])]
    rw [if_pos (show (mmcsd_eventwait (SDIOWAIT_TIMEOUT ||| SDIOWAIT_ERROR)
        o.wkupevent != OK) = true by simpa using hev)]
    exact ⟨rfl, by simp [(mmcsd_stoptransmission_view _ o.stopR1).2.1]⟩
  · have hcapf : priv.capsDmaBeforeWrite = false := by
      revert hcapb
      cases priv.capsDmaBeforeWrite <;> simp
    rw [show (mmcsd_recv_r1 (mmcsd_recv_r1
      (mmcsd_setblocklen (mmcsd_transferready q o.present o.readyPolls).2
        (mmcsd_transferready q o.present o.readyPolls).2.blocksize
        o.blocklenR1).priv o.cmd55R1).2 o.acmd23R1).2.capsDmaBeforeWrite = false from
      by rw [hcap3]; exact hcapf]
    rw [Bool.not_false]
    rw [dataCmdStep_ok _ _ o.dataR1 _ hdata]
    dsimp only
    rw [show (mmcsd_recv_r1 (mmcsd_recv_r1 (mmcsd_recv_r1
      (mmcsd_setblocklen (mmcsd_transferready q o.present o.readyPolls).2
        (mmcsd_transferready q o.present o.readyPolls).2.blocksize
        o.blocklenR1).priv o.cmd55R1).2 o.acmd23R1).2 o.dataR1).2.capsDmaBeforeWrite
      = false from by rw [hp6]; rw [hcap3]; exact hcapf]
    rw [dataCmdStep_skip]
    dsimp only
    rw [if_pos (show (IS_SD (mmcsd_recv_r1 (mmcsd_recv_r1 (mmcsd_recv_r1
      (mmcsd_setblocklen (mmcsd_transferready q o.present o.readyPolls).2
        (mmcsd_transferready q o.present o.readyPolls).2.blocksize
        o.blocklenR1).priv o.cmd55R1).2 o.acmd23R1).2 o.dataR1).2.cardType &&
      !(mmcsd_recv_r1 (mmcsd_recv_r1 (mmcsd_recv_r1
      (mmcsd_setblocklen (mmcsd_transferready q o.present o.readyPolls).2
        (mmcsd_transferready q o.present o.readyPolls).2.blocksize
        o.blocklenR1).priv o.cmd55R1).2 o.acmd23R1).2 o.dataR1).2.cmd23support) = true
      by rw [hc6, hs6]; simp [hsd, h23])]
    rw [if_pos (show (mmcsd_eventwait (SDIOWAIT_TIMEOUT ||| SDIOWAIT_ERROR)
        o.wkupevent != OK) = true by simpa using hev)]
    exact ⟨rfl, by simp [(mmcsd_stoptransmission_view _ o.stopR1).2.1]⟩

/-- Witness for C2 at a concrete SD card without CMD23 support: the event
wait times out, CMD12 is still in the trace, and the timeout is returned. -/
theorem C2_witness :
    (mmcsd_writemultiple sdNoCmd23State 0 100 4 evFailOracle).ret = -ETIMEDOUT ∧
    SdCmd.cmd12 ∈ (mmcsd_writemultiple sdNoCmd23State 0 100 4 evFailOracle).trace := by
  have h := C2_theorem sdNoCmd23State sdNoCmd23State 0 100 4 evFailOracle []
    (by decide) (by decide) (by decide) (by decide) (by decide) (by decide)
    (by decide) (by decide) (by decide) (by decide) (by decide)
  refine ⟨?_, h.2⟩
  rw [h.1]
  decide

/-! ## C9 -/

/-- C9: on an SD card without CMD23 support, a multi-block read whose data
phase succeeds still returns `nblocks` even when the trailing CMD12 fails
(`hstop`); the CMD12 error is discarded. -/
theorem C9_theorem (priv q : MmcsdState) (pn start n : Nat)
    (o : TransferOracle) (tr1 : List SdCmd)
    (hsd : IS_SD priv.cardType = true) (hmmc : IS_MMC priv.cardType = false)
    (h23 : priv.cmd23support = false) (hlk : priv.locked = false)
    (hps : partSwitchStep priv pn o = Sum.inr (q, tr1))
    (hready : (mmcsd_transferready q o.present o.readyPolls).1 = OK)
    (hbl : recvR1ret o.blocklenR1 = OK)
    (hdata : recvR1ret o.dataR1 = OK)
    (hev : mmcsd_eventwait (SDIOWAIT_TIMEOUT ||| SDIOWAIT_ERROR) o.wkupevent = OK)
    (hstop : recvR1ret o.stopR1 ≠ OK) :
    (mmcsd_readmultiple priv pn start n o).ret = (n : Int) ∧
    SdCmd.cmd12 ∈ (mmcsd_readmultiple priv pn start n o).trace := by
  obtain ⟨-, l, w, hq⟩ := partSwitchStep_inr priv pn o q tr1 hps
  have hpres := mmcsd_transferready_pres q o.present o.readyPolls
  have hc2 : (mmcsd_transferready q o.present o.readyPolls).2.cardType =
      priv.cardType := by
    rw [hpres.1, hq]
  have hs2 : (mmcsd_transferready q o.present o.readyPolls).2.cmd23support =
      priv.cmd23support := by
    rw [hpres.2.2.2.2.2.1, hq]
  obtain ⟨l3, s3, hbl3⟩ := mmcsd_setblocklen_shape
    (mmcsd_transferready q o.present o.readyPolls).2
    (mmcsd_transferready q o.present o.readyPolls).2.blocksize o.blocklenR1
  have hblc : (mmcsd_setblocklen (mmcsd_transferready q o.present o.readyPolls).2
      (mmcsd_transferready q o.present o.readyPolls).2.blocksize
      o.blocklenR1).priv.cardType = priv.cardType := by
    rw [hbl3]
    exact hc2
  have hbls : (mmcsd_setblocklen (mmcsd_transferready q o.present o.readyPolls).2
      (mmcsd_transferready q o.present o.readyPolls).2.blocksize
      o.blocklenR1).priv.cmd23support = priv.cmd23support := by
    rw [hbl3]
    exact hs2
  obtain ⟨l6, hp6⟩ := mmcsd_recv_r1_shape
    (mmcsd_setblocklen (mmcsd_transferready q o.present o.readyPolls).2
      (mmcsd_transferready q o.present o.readyPolls).2.blocksize
      o.blocklenR1).priv o.dataR1
  have hc6 : (mmcsd_recv_r1
      (mmcsd_setblocklen (mmcsd_transferready q o.present o.readyPolls).2
        (mmcsd_transferready q o.present o.readyPolls).2.blocksize
        o.blocklenR1).priv o.dataR1).2.cardType = priv.cardType := by
    rw [hp6]
    exact hblc
  have hs6 : (mmcsd_recv_r1
      (mmcsd_setblocklen (mmcsd_transferready q o.present o.readyPolls).2
        (mmcsd_transferready q o.present o.readyPolls).2.blocksize
        o.blocklenR1).priv o.dataR1).2.cmd23support = priv.cmd23support := by
    rw [hp6]
    exact hbls
  unfold mmcsd_readmultiple
  rw [if_neg (by simp [hlk]), hps]
  dsimp only
  rw [if_neg (by simp [hready])]
  rw [if_neg (by simp [mmcsd_setblocklen_ret_ok _ _ _ hbl])]
  rw [show (IS_MMC (mmcsd_setblocklen (mmcsd_transferready q o.present o.readyPolls).2
      (mmcsd_transferready q o.present o.readyPolls).2.blocksize
      o.blocklenR1).priv.cardType ||
      (IS_SD (mmcsd_setblocklen (mmcsd_transferready q o.present o.readyPolls).2
      (mmcsd_transferready q o.present o.readyPolls).2.blocksize
      o.blocklenR1).priv.cardType &&
       (mmcsd_setblocklen (mmcsd_transferready q o.present o.readyPolls).2
      (mmcsd_transferready q o.present o.readyPolls).2.blocksize
      o.blocklenR1).priv.cmd23support)) = false by
    rw [hblc, hbls]
    simp [hmmc, h23]]
  rw [blockcountStep_skip]
  dsimp only
  rw [if_neg (by simp [mmcsd_recv_r1_ret, hdata])]
  rw [if_neg (by simp [hev])]
  rw [if_pos (show (IS_SD (mmcsd_recv_r1
      (mmcsd_setblocklen (mmcsd_transferready q o.present o.readyPolls).2
        (mmcsd_transferready q o.present o.readyPolls).2.blocksize
        o.blocklenR1).priv o.dataR1).2.cardType &&
      !(mmcsd_recv_r1
      (mmcsd_setblocklen (mmcsd_transferready q o.present o.readyPolls).2
        (mmcsd_transferready q o.present o.readyPolls).2.blocksize
        o.blocklenR1).priv o.dataR1).2.cmd23support) = true by
    rw [hc6, hs6]
    simp [hsd, h23])]
  exact ⟨rfl, by simp [(mmcsd_stoptransmission_view _ o.stopR1).2.1]⟩

/-- Witness for C9: the data phase succeeds, CMD12's host response fails,
yet the read returns the block count. -/
theorem C9_witness :
    (mmcsd_readmultiple sdNoCmd23State 0 100 4 stopFailOracle).ret = (4 : Int) ∧
    SdCmd.cmd12 ∈ (mmcsd_readmultiple sdNoCmd23State 0 100 4 stopFailOracle).trace :=
  C9_theorem sdNoCmd23State sdNoCmd23State 0 100 4 stopFailOracle []
    (by decide) (by decide) (by decide) (by decide) (by decide) (by decide)
    (by decide) (by decide) (by decide) (by decide)

/-- Witness for C3: a byte-addressed single-block read issues CMD17 with
the start block converted to a byte offset. -/
theorem C3_witness :
    SdCmd.cmd17 (5 <<< 9) ∈ (mmcsd_readsingle sdv1ByteState 0 5 okOracle).trace ∧
    (5 <<< 9 : Nat) = if IS_BLOCK sdv1ByteState.cardType then 5
                      else 5 <<< sdv1ByteState.blockshift :=
  ⟨by decide, C3_theorem.1 sdv1ByteState 0 5 okOracle (5 <<< 9) (by decide)⟩

/-! ## C7 -/

/-- The facade loop's chunk sizes are exactly the spec's
`min(remaining, MULTIBLOCK_LIMIT)` sequence. -/
theorem read_loop_map_count (limit : Nat) :
    ∀ (k s e : Nat), e - s = k →
      (mmcsd_read_loop limit s e).map RwOp.count = spec_chunks limit (e - s) := by
  intro k
  induction k using Nat.strong_induction_on with
  | _ k ih =>
    intro s e hk
    rw [mmcsd_read_loop, spec_chunks]
    by_cases hc : s < e ∧ 0 < limit
    · have hc2 : 0 < e - s ∧ 0 < limit := ⟨Nat.sub_pos_of_lt hc.1, hc.2⟩
      rw [dif_pos hc, dif_pos hc2]
      have hmin : 0 < min (e - s) limit := lt_min_iff.mpr ⟨hc2.1, hc.2⟩
      dsimp only
      rw [List.map_cons]
      congr 1
      · by_cases h1 : min (e - s) limit = 1
        · simp [h1, RwOp.count]
        · simp [h1, RwOp.count]
      · have ih2 := ih (e - (s + min (e - s) limit)) (by omega)
          (s + min (e - s) limit) e rfl
        rw [ih2]
        congr 1
        omega
    · rw [dif_neg hc, dif_neg (by omega : ¬(0 < e - s ∧ 0 < limit))]
      simp

/-- Length of the spec chunk sequence: the ceiling of `n / limit`. -/
theorem spec_chunks_length (limit : Nat) (hl : 0 < limit) (n : Nat) :
    (spec_chunks limit n).length = (n + limit - 1) / limit := by
  induction n using Nat.strong_induction_on with
  | _ n ih =>
    rw [spec_chunks]
    by_cases hc : 0 < n ∧ 0 < limit
    · rw [dif_pos hc, List.length_cons]
      by_cases hle : n ≤ limit
      · rw [min_eq_left hle, Nat.sub_self, ih 0 hc.1]
        have h0 : (0 + limit - 1) / limit = 0 := Nat.div_eq_of_lt (by omega)
        have h1 : (n + limit - 1) / limit = 1 := by
          have heq : n + limit - 1 = (n - 1) + limit := by omega
          rw [heq, Nat.add_div_right _ hl, Nat.div_eq_of_lt (by omega)]
        rw [h0, h1]
      · rw [min_eq_right (by omega), ih (n - limit) (by omega)]
        have h1 : (n - limit) + limit - 1 = n - 1 := by omega
        have h2 : n + limit - 1 = (n - 1) + limit := by omega
        rw [h1, h2, Nat.add_div_right _ hl]
    · rw [dif_neg hc]
      have hn : n = 0 := by omega
      subst hn
      simp only [List.length_nil, Nat.zero_add]
      exact (Nat.div_eq_of_lt (by omega)).symm

/-- A chunk of the facade loop goes through the single-block path exactly
when it covers one block. -/
theorem read_loop_routing (limit : Nat) :
    ∀ (k s e : Nat), e - s = k → ∀ op ∈ mmcsd_read_loop limit s e,
      (RwOp.count op = 1 ↔ ∃ sec, op = RwOp.single sec) := by
  intro k
  induction k using Nat.strong_induction_on with
  | _ k ih =>
    intro s e hk op hop
    rw [mmcsd_read_loop] at hop
    by_cases hc : s < e ∧ 0 < limit
    · rw [dif_pos hc] at hop
      have hmin : 0 < min (e - s) limit :=
        lt_min_iff.mpr ⟨Nat.sub_pos_of_lt hc.1, hc.2⟩
      dsimp only at hop
      rcases List.mem_cons.mp hop with h | h
      · subst h
        by_cases h1 : min (e - s) limit = 1
        · simp [h1, RwOp.count]
        · simp [h1, RwOp.count]
      · exact ih (e - (s + min (e - s) limit)) (by omega)
          (s + min (e - s) limit) e rfl op h
    · rw [dif_neg hc] at hop
      simp at hop

/-- C7: the facade read loop splits a request into successive chunks of
size `min(remaining, MULTIBLOCK_LIMIT)` (matching the spec-worded
`spec_chunks`), issues `ceil(n / limit)` data commands, and routes a chunk
through the single-block CMD17 path exactly when it covers one block. -/
theorem C7_theorem (limit s e : Nat) (hl : 0 < limit) :
    ((mmcsd_read_loop limit s e).map RwOp.count = spec_chunks limit (e - s)) ∧
    ((mmcsd_read_loop limit s e).length = ((e - s) + limit - 1) / limit) ∧
    (∀ op ∈ mmcsd_read_loop limit s e,
      (RwOp.count op = 1 ↔ ∃ sec, op = RwOp.single sec)) := by
  refine ⟨read_loop_map_count limit (e - s) s e rfl, ?_,
    read_loop_routing limit (e - s) s e rfl⟩
  have h1 := congrArg List.length (read_loop_map_count limit (e - s) s e rfl)
  rw [List.length_map] at h1
  rw [h1, spec_chunks_length limit hl (e - s)]

/-- Witness for C7: five blocks with limit 2 split into three commands. -/
theorem C7_witness :
    (0 : Nat) < 2 ∧ (mmcsd_read_loop 2 0 5).length = (5 + 2 - 1) / 2 :=
  ⟨by decide, (C7_theorem 2 0 5 (by decide)).2.1⟩

/-! ## C8 -/

end MmcsdSdio
